import Mathlib

/-!
Shallow embedding of the Servo WebDriver protocol bridge
(`src/components/webdriver_server/lib.rs`), together with proofs checking the
natural-language specification against it.

The embedding models the Handler's per-command functions as pure functions
from a handler state and an engine oracle (the replies the external browser
engine would deliver on the various reply channels) to a result, the updated
handler state, and the list of messages sent to the Controller (the
constellation).  Rust `panic!`/`unwrap` failures are modelled by a dedicated
`panic` outcome, distinct from typed WebDriver errors.

The JSON number payloads produced by the engine are IEEE-754 doubles in the
source; the embedding carries them opaquely in a type parameter `α` (the
encoder and decoder never compute with them, they only move them around).
JSON integers (produced when serializing `i64`/`u64` preference values and
timeouts) are carried separately as `Int`.
-/

/-- Error taxonomy of `webdriver::error::ErrorStatus` as used by the bridge. -/
inductive ErrorStatus where
  | sessionNotCreated
  | invalidArgument
  | invalidCookieDomain
  | unableToSetCookie
  | noSuchWindow
  | noSuchElement
  | staleElementReference
  | unsupportedOperation
  | timeout
  | javascriptError
  | unknownError
  | moveTargetOutOfBounds
  deriving DecidableEq, Repr

/-- Mirrors `webdriver::error::WebDriverError` (status plus message). -/
structure WebDriverError where
  error : ErrorStatus
  message : String
  deriving DecidableEq, Repr

/-- Mirrors `WebDriverError::new`. -/
def WebDriverError.new (error : ErrorStatus) (message : String) : WebDriverError :=
  ⟨error, message⟩

mutual
/-- Model of `serde_json::Value`.  `num` carries an (opaque) IEEE-754 double
payload of type `α`; `intNum` carries an integer payload (serde_json
distinguishes integer and floating-point numbers internally). -/
inductive Json (α : Type) where
  | null
  | bool (b : Bool)
  | num (x : α)
  | intNum (n : Int)
  | str (s : String)
  | arr (xs : JsonList α)
  | obj (kvs : JsonEntries α)
  deriving DecidableEq, Repr
/-- List of JSON values (spelled out so that structural recursion and
induction over the mutually defined tree are available). -/
inductive JsonList (α : Type) where
  | nil
  | cons (head : Json α) (tail : JsonList α)
  deriving DecidableEq, Repr
/-- Ordered key/value entries of a JSON object. -/
inductive JsonEntries (α : Type) where
  | nil
  | cons (key : String) (value : Json α) (tail : JsonEntries α)
  deriving DecidableEq, Repr
end

/-- Convenience conversion from a Lean list. -/
def JsonList.ofList {α : Type} : List (Json α) → JsonList α
  | [] => .nil
  | x :: xs => .cons x (JsonList.ofList xs)

/-- Convenience conversion from a Lean association list. -/
def JsonEntries.ofList {α : Type} : List (String × Json α) → JsonEntries α
  | [] => .nil
  | (k, v) :: rest => .cons k v (JsonEntries.ofList rest)

/-- Look up a key in a JSON object entry list (first match), as
`serde_json::Map::get`. -/
def JsonEntries.get {α : Type} (k : String) : JsonEntries α → Option (Json α)
  | .nil => none
  | .cons key v rest => if key = k then some v else JsonEntries.get k rest

/-- Insert (replace-or-append) a key in a JSON object entry list, as
`serde_json::Map::insert`. -/
def JsonEntries.insert {α : Type} (k : String) (v : Json α) : JsonEntries α → JsonEntries α
  | .nil => .cons k v .nil
  | .cons key v0 rest =>
      if key = k then .cons key v rest else .cons key v0 (JsonEntries.insert k v rest)

/-- `Value::as_bool` from serde_json. -/
def Json.asBool {α : Type} : Json α → Option Bool
  | .bool b => some b
  | _ => none

/-- `Value::as_u64` from serde_json: succeeds only on non-negative integer
numbers. -/
def Json.asU64 {α : Type} : Json α → Option Nat
  | .intNum n => if n < 0 then none else some n.toNat
  | _ => none

mutual
/-- Rendering of a JSON value to text, as the `Display` instance of
`serde_json::Value` (used by the source through `.to_string()` on capability
values; note that it renders strings WITH surrounding quotes).  `showNum`
renders the opaque double payload; string escaping is not modelled. -/
def Json.render {α : Type} (showNum : α → String) : Json α → String
  | .null => "null"
  | .bool b => if b then "true" else "false"
  | .num x => showNum x
  | .intNum n => toString n
  | .str s => "\"" ++ s ++ "\""
  | .arr xs => "[" ++ JsonList.render showNum xs ++ "]"
  | .obj kvs => "\x7b" ++ JsonEntries.render showNum kvs ++ "\x7d"
/-- Comma-separated rendering of array elements. -/
def JsonList.render {α : Type} (showNum : α → String) : JsonList α → String
  | .nil => ""
  | .cons x .nil => Json.render showNum x
  | .cons x rest => Json.render showNum x ++ "," ++ JsonList.render showNum rest
/-- Comma-separated rendering of object entries. -/
def JsonEntries.render {α : Type} (showNum : α → String) : JsonEntries α → String
  | .nil => ""
  | .cons k v .nil => "\"" ++ k ++ "\":" ++ Json.render showNum v
  | .cons k v rest =>
      "\"" ++ k ++ "\":" ++ Json.render showNum v ++ "," ++ JsonEntries.render showNum rest
end

mutual
/-- Model of `script_traits::webdriver_msg::WebDriverJSValue`: the tagged
union of JavaScript values the engine can return.  Element, frame and window
handles carry their opaque string id (the `WebElement`/`WebFrame`/`WebWindow`
newtypes).  The `object` payload is a `HashMap` in the source; it is modelled
as an ordered entry list with (by construction) distinct keys. -/
inductive WebDriverJSValue (α : Type) where
  | undefined
  | null
  | boolean (b : Bool)
  | number (x : α)
  | string (s : String)
  | element (e : String)
  | frame (f : String)
  | window (w : String)
  | arrayLike (xs : JSValueList α)
  | object (kvs : JSValueEntries α)
  deriving DecidableEq, Repr
/-- List of JS values. -/
inductive JSValueList (α : Type) where
  | nil
  | cons (head : WebDriverJSValue α) (tail : JSValueList α)
  deriving DecidableEq, Repr
/-- Key/value entries of a JS object. -/
inductive JSValueEntries (α : Type) where
  | nil
  | cons (key : String) (value : WebDriverJSValue α) (tail : JSValueEntries α)
  deriving DecidableEq, Repr
end

/-- The W3C web element identifier key used by `WebElement::serialize`. -/
def webElementKey : String := "element-6066-11e4-a52e-4f735466cecf"

/-- The frame identifier key used by `WebFrame::serialize`. -/
def webFrameKey : String := "frame-075b-4da1-b6ba-e579c2d3230a"

/-- The window identifier key used by `WebWindow::serialize`. -/
def webWindowKey : String := "window-fcc6-11e5-b4f8-330a88ab9d7f"

mutual
/-- The JS-result encoder: `SendableWebDriverJSValue::serialize` from the
source.  Undefined and Null both serialize as unit (JSON null); element,
frame and window handles serialize as singleton objects under their standard
keys; arrays and objects serialize pointwise. -/
def serializeJSValue {α : Type} : WebDriverJSValue α → Json α
  | .undefined => .null
  | .null => .null
  | .boolean b => .bool b
  | .number x => .num x
  | .string s => .str s
  | .element e => .obj (.cons webElementKey (.str e) .nil)
  | .frame f => .obj (.cons webFrameKey (.str f) .nil)
  | .window w => .obj (.cons webWindowKey (.str w) .nil)
  | .arrayLike xs => .arr (serializeJSList xs)
  | .object kvs => .obj (serializeJSEntries kvs)
/-- Pointwise encoding of an array of JS values. -/
def serializeJSList {α : Type} : JSValueList α → JsonList α
  | .nil => .nil
  | .cons x xs => .cons (serializeJSValue x) (serializeJSList xs)
/-- Pointwise encoding of the entries of a JS object. -/
def serializeJSEntries {α : Type} : JSValueEntries α → JsonEntries α
  | .nil => .nil
  | .cons k v rest => .cons k (serializeJSValue v) (serializeJSEntries rest)
end

/-- The singleton-object-with-string-value shape, under which the three
handle encodings live: `some (key, value)` exactly for `{key: "value"}`. -/
def singleEntryString {α : Type} : JsonEntries α → Option (String × String)
  | .cons k (.str s) .nil => some (k, s)
  | _ => none

mutual
/-- Modelled from the spec: the source contains no decoder for the JSON
produced by the JS-result encoder, so the natural re-decoding named by the
spec (round-trip property) is modelled here from the spec's words: JSON null
decodes to the null JS value, scalars decode to the corresponding scalar
values, a singleton object whose key is a standard handle key and whose value
is a string decodes to the corresponding handle, and other arrays/objects
decode pointwise.  Integer-tagged JSON numbers are never produced by the
encoder (it serializes IEEE-754 doubles only) and decode to null. -/
def decodeJSValue {α : Type} : Json α → WebDriverJSValue α
  | .null => .null
  | .bool b => .boolean b
  | .num x => .number x
  | .intNum _ => .null
  | .str s => .string s
  | .arr xs => .arrayLike (decodeJSList xs)
  | .obj kvs =>
    match singleEntryString kvs with
    | some (k, s) =>
        if k = webElementKey then .element s
        else if k = webFrameKey then .frame s
        else if k = webWindowKey then .window s
        else .object (decodeJSEntries kvs)
    | none => .object (decodeJSEntries kvs)
/-- Pointwise decoding of a JSON array. -/
def decodeJSList {α : Type} : JsonList α → JSValueList α
  | .nil => .nil
  | .cons x xs => .cons (decodeJSValue x) (decodeJSList xs)
/-- Pointwise decoding of JSON object entries. -/
def decodeJSEntries {α : Type} : JsonEntries α → JSValueEntries α
  | .nil => .nil
  | .cons k v rest => .cons k (decodeJSValue v) (decodeJSEntries rest)
end

mutual
/-- The undefined and null variants both encode to JSON null, so at best a
round trip maps undefined to null; `canonicalizeJSValue` performs exactly
that collapse and is the identity everywhere else. -/
def canonicalizeJSValue {α : Type} : WebDriverJSValue α → WebDriverJSValue α
  | .undefined => .null
  | .null => .null
  | .boolean b => .boolean b
  | .number x => .number x
  | .string s => .string s
  | .element e => .element e
  | .frame f => .frame f
  | .window w => .window w
  | .arrayLike xs => .arrayLike (canonicalizeJSList xs)
  | .object kvs => .object (canonicalizeJSEntries kvs)
/-- Pointwise canonicalization of an array. -/
def canonicalizeJSList {α : Type} : JSValueList α → JSValueList α
  | .nil => .nil
  | .cons x xs => .cons (canonicalizeJSValue x) (canonicalizeJSList xs)
/-- Pointwise canonicalization of object entries. -/
def canonicalizeJSEntries {α : Type} : JSValueEntries α → JSValueEntries α
  | .nil => .nil
  | .cons k v rest => .cons k (canonicalizeJSValue v) (canonicalizeJSEntries rest)
end

mutual
/-- JS values whose JSON encoding is unambiguous: object keys must avoid the
three reserved handle keys (a singleton object under a reserved key encodes
exactly like the corresponding handle, so no decoder can distinguish them). -/
def goodJSValue {α : Type} : WebDriverJSValue α → Bool
  | .undefined => true
  | .null => true
  | .boolean _ => true
  | .number _ => true
  | .string _ => true
  | .element _ => true
  | .frame _ => true
  | .window _ => true
  | .arrayLike xs => goodJSList xs
  | .object kvs => goodJSEntries kvs
/-- All elements good. -/
def goodJSList {α : Type} : JSValueList α → Bool
  | .nil => true
  | .cons x xs => goodJSValue x && goodJSList xs
/-- All entries good and no reserved keys. -/
def goodJSEntries {α : Type} : JSValueEntries α → Bool
  | .nil => true
  | .cons k v rest =>
      decide (k ≠ webElementKey) && decide (k ≠ webFrameKey) && decide (k ≠ webWindowKey) &&
      goodJSValue v && goodJSEntries rest
end

/-- Mirrors `servo_config::prefs::PrefValue` (float payload opaque in `α`). -/
inductive PrefValue (α : Type) where
  | bool (b : Bool)
  | str (s : String)
  | float (x : α)
  | int (n : Int)
  | missing
  deriving DecidableEq, Repr

/-- Serialization of `WebDriverPrefValue` from the source: each variant
serializes as the underlying JSON primitive; `Missing` as unit (null). -/
def serializePrefValue {α : Type} : PrefValue α → Json α
  | .bool b => .bool b
  | .str s => .str s
  | .float x => .num x
  | .int n => .intNum n
  | .missing => .null

/-- Model of the `cookie::Cookie` crate type as the bridge consumes it: every
attribute getter besides name/value returns an `Option`. -/
structure RawCookie where
  name : String
  value : String
  path : Option String
  domain : Option String
  expires : Option Nat
  secure : Option Bool
  httpOnly : Option Bool
  sameSite : Option String
  deriving DecidableEq, Repr

/-- Mirrors `webdriver::common::Cookie` (the wire shape). -/
structure Cookie where
  name : String
  value : String
  path : Option String
  domain : Option String
  expiry : Option Nat
  secure : Bool
  httpOnly : Bool
  sameSite : Option String
  deriving DecidableEq, Repr

/-- Mirrors `cookie_msg_to_cookie` from the source: copies the attributes,
defaulting absent `secure`/`http_only` to `false`. -/
def cookie_msg_to_cookie (cookie : RawCookie) : Cookie :=
  { name := cookie.name
    value := cookie.value
    path := cookie.path
    domain := cookie.domain
    expiry := cookie.expires
    secure := (cookie.secure).getD false
    httpOnly := (cookie.httpOnly).getD false
    sameSite := cookie.sameSite }

/-- Pointer subtypes, as `webdriver::actions::PointerType`. -/
inductive PointerType where
  | mouse
  | pen
  | touch
  deriving DecidableEq, Repr

/-- Declared kind of an action sequence (`null`, `key` or `pointer` with its
subtype). -/
inductive SourceKind where
  | null
  | key
  | pointer (subtype : PointerType)
  deriving DecidableEq, Repr

/-- Modelled from the spec: the per-tick actions of the W3C action model as
dispatched by the missing `actions.rs` module (only its callers are under
`src/`).  Durations and pointer-move interpolation are real-time behaviour
with no effect on the session state, so a pointer move is carried by its
target coordinates. -/
inductive ActionItem where
  | pause (duration : Nat)
  | keyDown (key : String)
  | keyUp (key : String)
  | pointerMove (x : Int) (y : Int)
  | pointerDown (button : Nat)
  | pointerUp (button : Nat)
  deriving DecidableEq, Repr

/-- Mirrors `webdriver::actions::ActionSequence`: an input source id, its
declared kind, and the per-tick action list. -/
structure ActionSequence where
  id : String
  kind : SourceKind
  actions : List ActionItem
  deriving DecidableEq, Repr

/-- Modelled from the spec: `InputSourceState` from the missing `actions.rs`:
`Null`, `Key` with its set of pressed (normalized) keys, or `Pointer` with
its subtype, pressed button set and coordinates.  The pressed sets are kept
as duplicate-free lists. -/
inductive InputSourceState where
  | null
  | key (pressed : List String)
  | pointer (subtype : PointerType) (pressed : List Nat) (x : Int) (y : Int)
  deriving DecidableEq, Repr

/-- Pressed keys of a source (empty for non-key sources). -/
def InputSourceState.pressedKeys : InputSourceState → List String
  | .key pressed => pressed
  | _ => []

/-- Pressed buttons of a source (empty for non-pointer sources). -/
def InputSourceState.pressedButtons : InputSourceState → List Nat
  | .pointer _ pressed _ _ => pressed
  | _ => []

/-- Modelled from the spec: the fresh state inserted when an action sequence
references a source id not yet in the input state table. -/
def freshSourceState : SourceKind → InputSourceState
  | .null => .null
  | .key => .key []
  | .pointer subtype => .pointer subtype [] 0 0

/-- Mirrors `WebDriverSession` from the source: identity, browsing-context
targets, timeouts, behaviour flags, the input state table and the input
cancel list.  Browsing-context ids are modelled as naturals; the input state
table (a `HashMap` in the source) as an association list with distinct keys. -/
structure WebDriverSession where
  id : String
  browsing_context_id : Nat
  top_level_browsing_context_id : Nat
  script_timeout : Option Nat
  load_timeout : Nat
  implicit_wait_timeout : Nat
  page_loading_strategy : String
  strict_file_interactability : Bool
  unhandled_prompt_behavior : String
  input_state_table : List (String × InputSourceState)
  input_cancel_list : List ActionSequence
  deriving DecidableEq, Repr

/-- Mirrors `WebDriverSession::new`.  The source draws the fresh id from
`Uuid::new_v4()`; the embedding takes the rendered UUID as an argument. -/
def WebDriverSession.new (uuid : String) (browsing_context_id : Nat)
    (top_level_browsing_context_id : Nat) : WebDriverSession :=
  { id := uuid
    browsing_context_id := browsing_context_id
    top_level_browsing_context_id := top_level_browsing_context_id
    script_timeout := some 30000
    load_timeout := 300000
    implicit_wait_timeout := 0
    page_loading_strategy := "normal"
    strict_file_interactability := false
    unhandled_prompt_behavior := "dismiss and notify"
    input_state_table := []
    input_cancel_list := [] }

/-- Frame selector, as `script_traits::webdriver_msg::WebDriverFrameId`. -/
inductive WebDriverFrameId where
  | short (n : Nat)
  | element (e : String)
  | parent
  deriving DecidableEq, Repr

/-- Script-thread command payloads (`WebDriverScriptCommand`), without their
reply senders (replies are delivered by the engine oracle below). -/
inductive WebDriverScriptCommand where
  | addCookie (cookie : RawCookie)
  | deleteCookies
  | executeScript (script : String)
  | executeAsyncScript (script : String)
  | findElementCSS (selector : String)
  | findElementLinkText (text : String) (isPartialMatch : Bool)
  | findElementTagName (name : String)
  | findElementsCSS (selector : String)
  | findElementsLinkText (text : String) (isPartialMatch : Bool)
  | findElementsTagName (name : String)
  | findElementElementCSS (selector : String) (element : String)
  | findElementElementLinkText (text : String) (element : String) (isPartialMatch : Bool)
  | findElementElementTagName (name : String) (element : String)
  | findElementElementsCSS (selector : String) (element : String)
  | findElementElementsLinkText (text : String) (element : String) (isPartialMatch : Bool)
  | findElementElementsTagName (name : String) (element : String)
  | focusElement (element : String)
  | elementClick (element : String)
  | getActiveElement
  | getCookie (name : String)
  | getCookies
  | getBoundingClientRect (element : String)
  | getBrowsingContextId (frameId : WebDriverFrameId)
  | getElementAttribute (element : String) (name : String)
  | getElementProperty (element : String) (name : String)
  | getElementCSS (element : String) (name : String)
  | getElementRect (element : String)
  | getElementTagName (element : String)
  | getElementText (element : String)
  | getPageSource
  | getTitle
  | getUrl
  | isEnabled (element : String)
  | isSelected (element : String)
  deriving DecidableEq, Repr

/-- History traversal direction (`msg::constellation_msg::TraversalDirection`). -/
inductive TraversalDirection where
  | back (n : Nat)
  | forward (n : Nat)
  deriving DecidableEq, Repr

/-- Controller-bound command envelopes (`WebDriverCommandMsg`), without reply
senders.  `sendKeys` carries the raw text: the translation into key events
(`keyboard_types::webdriver::send_keys`) is an external collaborator. -/
inductive WebDriverCommandMsg where
  | loadUrl (ctx : Nat) (url : String)
  | refresh (ctx : Nat)
  | scriptCommand (ctx : Nat) (cmd : WebDriverScriptCommand)
  | getWindowSize (ctx : Nat)
  | setWindowSize (ctx : Nat) (width : Int) (height : Int)
  | sendKeys (ctx : Nat) (text : String)
  | takeScreenshot (ctx : Nat) (rect : Option (Int × Int × Int × Int))
  deriving DecidableEq, Repr

/-- Messages the Handler sends to the Controller (the constellation).
`synthesizedInputEvent` models the key/mouse events the action dispatcher
(missing `actions.rs`, modelled from the spec) forwards to the engine. -/
inductive ConstellationMsg where
  | getFocusTopLevelBrowsingContext
  | webDriverCommand (msg : WebDriverCommandMsg)
  | traverseHistory (ctx : Nat) (direction : TraversalDirection)
  | synthesizedInputEvent (sourceId : String) (action : ActionItem)
  deriving DecidableEq, Repr

/-- Locator strategies of `webdriver::common::LocatorStrategy`. -/
inductive LocatorStrategy where
  | cssSelector
  | linkText
  | partialLinkText
  | tagName
  | xPath
  deriving DecidableEq, Repr

/-- `webdriver::command::LocatorParameters`.  The first field is spelled
`using` in the source; `using` is reserved in Lean. -/
structure LocatorParameters where
  strategy : LocatorStrategy
  value : String
  deriving DecidableEq, Repr

/-- `webdriver::command::GetParameters`. -/
structure GetParameters where
  url : String
  deriving DecidableEq, Repr

/-- `webdriver::command::NewSessionParameters`: a legacy request, or a W3C
capabilities request carried opaquely (its processing,
`CapabilitiesMatching::match_browser`, is external crate code answered by the
engine oracle). -/
inductive NewSessionParameters (α : Type) where
  | legacy
  | spec (capabilities : Json α)
  deriving DecidableEq, Repr

/-- `webdriver::command::AddCookieParameters` (the fields the bridge reads). -/
structure AddCookieParameters where
  name : String
  value : String
  path : Option String
  domain : Option String
  secure : Bool
  httpOnly : Bool
  deriving DecidableEq, Repr

/-- `webdriver::command::SendKeysParameters`. -/
structure SendKeysParameters where
  text : String
  deriving DecidableEq, Repr

/-- `webdriver::command::TimeoutsParameters`: the script timeout is doubly
optional (absent, or present and possibly null). -/
structure TimeoutsParameters where
  script : Option (Option Nat)
  page_load : Option Nat
  implicit : Option Nat
  deriving DecidableEq, Repr

/-- `webdriver::command::WindowRectParameters` (the fields the bridge reads). -/
structure WindowRectParameters where
  width : Option Int
  height : Option Int
  deriving DecidableEq, Repr

/-- `webdriver::common::FrameId`. -/
inductive FrameId where
  | short (n : Nat)
  | element (e : String)
  deriving DecidableEq, Repr

/-- `webdriver::command::SwitchToFrameParameters`. -/
structure SwitchToFrameParameters where
  id : Option FrameId
  deriving DecidableEq, Repr

/-- `webdriver::command::SwitchToWindowParameters`. -/
structure SwitchToWindowParameters where
  handle : String
  deriving DecidableEq, Repr

/-- `webdriver::command::JavascriptCommandParameters` (the bridge reads only
the script body). -/
structure JavascriptCommandParameters where
  script : String
  deriving DecidableEq, Repr

/-- `webdriver::command::ActionsParameters`. -/
structure ActionsParameters where
  actions : List ActionSequence
  deriving DecidableEq, Repr

/-- `GetPrefsParameters` from the source (also used for reset). -/
structure GetPrefsParameters where
  prefs : List String
  deriving DecidableEq, Repr

/-- `SetPrefsParameters` from the source: an ordered sequence of
(name, value) pairs, as decoded by `map_to_vec`. -/
structure SetPrefsParameters (α : Type) where
  prefs : List (String × PrefValue α)
  deriving DecidableEq, Repr

/-- The vendor extension commands (`ServoExtensionCommand`). -/
inductive ServoExtensionCommand (α : Type) where
  | getPrefs (parameters : GetPrefsParameters)
  | setPrefs (parameters : SetPrefsParameters α)
  | resetPrefs (parameters : GetPrefsParameters)
  deriving DecidableEq, Repr

/-- The WebDriver commands dispatched by `handle_command`.  The final two
variants stand for the commands of the `webdriver` crate that the bridge does
not handle (its dispatch has a catch-all arm for them). -/
inductive WebDriverCommand (α : Type) where
  | newSession (parameters : NewSessionParameters α)
  | deleteSession
  | status
  | addCookie (parameters : AddCookieParameters)
  | get (parameters : GetParameters)
  | getCurrentUrl
  | getWindowRect
  | setWindowRect (parameters : WindowRectParameters)
  | isEnabled (element : String)
  | isSelected (element : String)
  | goBack
  | goForward
  | refresh
  | getTitle
  | getWindowHandle
  | getWindowHandles
  | switchToFrame (parameters : SwitchToFrameParameters)
  | switchToParentFrame
  | switchToWindow (parameters : SwitchToWindowParameters)
  | findElement (parameters : LocatorParameters)
  | findElements (parameters : LocatorParameters)
  | findElementElement (element : String) (parameters : LocatorParameters)
  | findElementElements (element : String) (parameters : LocatorParameters)
  | getNamedCookie (name : String)
  | getCookies
  | getActiveElement
  | getElementRect (element : String)
  | getElementText (element : String)
  | getElementTagName (element : String)
  | getElementAttribute (element : String) (name : String)
  | getElementProperty (element : String) (name : String)
  | getCSSValue (element : String) (name : String)
  | getPageSource
  | performActions (parameters : ActionsParameters)
  | releaseActions
  | executeScript (parameters : JavascriptCommandParameters)
  | executeAsyncScript (parameters : JavascriptCommandParameters)
  | elementSendKeys (element : String) (keys : SendKeysParameters)
  | elementClick (element : String)
  | dismissAlert
  | deleteCookies
  | getTimeouts
  | setTimeouts (parameters : TimeoutsParameters)
  | takeScreenshot
  | takeElementScreenshot (element : String)
  | extension (cmd : ServoExtensionCommand α)
  | deleteCookie (name : String)
  | acceptAlert

/-- The WebDriver responses (`webdriver::response::WebDriverResponse`) the
bridge produces. -/
inductive WebDriverResponse (α : Type) where
  | void
  | newSession (sessionId : String) (capabilities : Json α)
  | deleteSession
  | generic (value : Json α)
  | windowRect (x : Int) (y : Int) (width : Int) (height : Int)
  | elementRect (x : Int) (y : Int) (width : Int) (height : Int)
  | cookie (c : Cookie)
  | cookies (cs : List Cookie)
  | timeouts (script : Option Nat) (pageLoad : Nat) (implicit : Nat)
  deriving DecidableEq, Repr

/-- Result of a handler method: a typed response, a typed WebDriver error, or
a Rust panic (`unwrap`/`assert!` failure — not a typed error). -/
inductive Outcome (α : Type) where
  | ok (response : WebDriverResponse α)
  | err (e : WebDriverError)
  | panic (msg : String)
  deriving DecidableEq, Repr

/-- Intermediate result of a fallible Rust computation that can also panic. -/
inductive RustResult (β : Type) where
  | value (v : β)
  | panicked (msg : String)

/-- Engine-signaled cookie errors (`WebDriverCookieError`). -/
inductive WebDriverCookieError where
  | invalidDomain
  | unableToSetCookie
  deriving DecidableEq, Repr

/-- Engine-signaled script-evaluation errors (`WebDriverJSError`). -/
inductive WebDriverJSError where
  | browsingContextNotFound
  | jsError
  | staleElementReference
  | timeout
  | unknownType
  deriving DecidableEq, Repr

/-- Pixel formats of the framebuffer (`pixels::PixelFormat`). -/
inductive PixelFormat where
  | k8
  | ka8
  | rgb8
  | rgba8
  | bgra8
  deriving DecidableEq, Repr

/-- A framebuffer snapshot delivered by the Controller. -/
structure ScreenshotImage where
  width : Nat
  height : Nat
  format : PixelFormat
  bytes : List Nat
  deriving DecidableEq, Repr

/-- Modelled from the spec: the engine-reported capabilities produced by
`ServoCapabilities::new` in the missing `capabilities.rs` (browserName,
browserVersion, platformName, acceptInsecureCerts, setWindowRect). -/
structure ServoCapabilities where
  browser_name : String
  browser_version : String
  platform_name : Option String
  accept_insecure_certs : Bool
  set_window_rect : Bool
  deriving DecidableEq, Repr

/-- The engine oracle: the values every external collaborator of the bridge
delivers on its reply channels during one command, plus the external pure
functions (URL parsing, key normalization, PNG/base64 encoding, the
float-to-text rendering of serde_json, the UUID generator).
`loadStatusArrival` gives the instant (milliseconds from the start of the
wait) at which the next load-status message is delivered to the Handler's
threaded receiver, `none` if none ever arrives; `focusedTopLevelBrowsingContext`
is the first non-null focused context the 20ms/30s polling loop observes. -/
structure Engine (α : Type) where
  servoCapabilities : ServoCapabilities
  matchBrowser : Json α → Except WebDriverError (Option (JsonEntries α))
  newUuid : String
  showNum : α → String
  normalizeKey : String → String
  parseUrl : String → Option String
  pngBase64 : ScreenshotImage → String
  focusedTopLevelBrowsingContext : Option Nat
  loadStatusArrival : Option Nat
  urlReply : String
  windowSizeReply : Int × Int
  titleReply : String
  isEnabledReply : Except ErrorStatus Bool
  isSelectedReply : Except ErrorStatus Bool
  findElementReply : Except ErrorStatus (Option String)
  findElementsReply : Except ErrorStatus (List String)
  browsingContextIdReply : Except ErrorStatus Nat
  elementRectReply : Except ErrorStatus (Int × Int × Int × Int)
  elementTextReply : Except ErrorStatus String
  activeElementReply : Option String
  elementTagNameReply : Except ErrorStatus String
  elementAttributeReply : Except ErrorStatus (Option String)
  elementPropertyReply : Except ErrorStatus (WebDriverJSValue α)
  elementCssReply : Except ErrorStatus String
  getCookiesReply : List RawCookie
  getCookieReply : List RawCookie
  addCookieReply : Except WebDriverCookieError Unit
  deleteCookiesReply : Except ErrorStatus Unit
  pageSourceReply : Except ErrorStatus String
  jsResult : Except WebDriverJSError (WebDriverJSValue α)
  focusElementReply : Except ErrorStatus Unit
  elementClickReply : Except ErrorStatus (Option String)
  actionEmit : String → ActionItem → Option ErrorStatus
  framebuffer : Option ScreenshotImage
  boundingClientRectReply : Except ErrorStatus (Int × Int × Int × Int)
  getPref : String → PrefValue α
  resetPref : String → PrefValue α

/-- The protocol state machine (`Handler`): the optional session and the
resize timeout.  The Controller sender is modelled by the message log each
handler returns; the load-status channel pair by `Engine.loadStatusArrival`. -/
structure Handler where
  session : Option WebDriverSession
  resize_timeout : Nat
  deriving DecidableEq, Repr

/-- Mirrors `Handler::new`. -/
def Handler.new : Handler :=
  { session := none, resize_timeout := 500 }

/-- Result triple of one handler method: outcome, updated handler state, and
the messages sent to the Controller (in order). -/
abbrev HandlerResult (α : Type) := Outcome α × Handler × List ConstellationMsg

/-- Mirrors `Handler::session` (and `session_mut`): the current session, or
the `SessionNotCreated` error. -/
def Handler.sessionResult (h : Handler) : Except WebDriverError WebDriverSession :=
  match h.session with
  | some x => .ok x
  | none => .error (WebDriverError.new .sessionNotCreated "Session not created")

/-- Mirrors `browsing_context_script_command`: wraps a script command for the
session's current browsing context. -/
def browsing_context_script_command (h : Handler) (cmd_msg : WebDriverScriptCommand) :
    Except WebDriverError ConstellationMsg :=
  match h.sessionResult with
  | .error e => .error e
  | .ok session =>
      .ok (.webDriverCommand (.scriptCommand session.browsing_context_id cmd_msg))

/-- Mirrors `top_level_script_command`: wraps a script command for the
session's top-level browsing context. -/
def top_level_script_command (h : Handler) (cmd_msg : WebDriverScriptCommand) :
    Except WebDriverError ConstellationMsg :=
  match h.sessionResult with
  | .error e => .error e
  | .ok session =>
      .ok (.webDriverCommand (.scriptCommand session.top_level_browsing_context_id cmd_msg))

/-- Mirrors `focus_top_level_browsing_context_id`: poll the Controller every
20 ms for up to 30 s (1500 iterations); the oracle supplies the first
non-null focused context the loop observes (`none` = exhaustion → Timeout). -/
def focus_top_level_browsing_context_id {α : Type} (env : Engine α) :
    Except WebDriverError Nat × List ConstellationMsg :=
  match env.focusedTopLevelBrowsingContext with
  | some x => (.ok x, [.getFocusTopLevelBrowsingContext])
  | none =>
      (.error (WebDriverError.new .timeout "Failed to get window handle"),
       List.replicate 1500 .getFocusTopLevelBrowsingContext)

/-- Mirrors `handle_delete_session`. -/
def handle_delete_session {α : Type} (h : Handler) : HandlerResult α :=
  (.ok .deleteSession, { h with session := none }, [])

/-- Mirrors `handle_status`.  (serde_json's `json!` object is backed by a
key-sorted map, so `message` precedes `ready`.) -/
def handle_status {α : Type} (h : Handler) : HandlerResult α :=
  if h.session.isNone then
    (.ok (.generic (.obj (.cons "message" (.str "Ready for a new session")
        (.cons "ready" (.bool true) .nil)))), h, [])
  else
    (.ok (.generic (.obj (.cons "message" (.str "Not ready for a new session")
        (.cons "ready" (.bool false) .nil)))), h, [])

/-- `Value::get` on an object (used on the `timeouts` capability). -/
def Json.getKey {α : Type} (k : String) : Json α → Option (Json α)
  | .obj kvs => kvs.get k
  | _ => none

/-- Mirrors the capability-processing block of `handle_new_session` (lines
476–574 of the source): reads caller-supplied `pageLoadStrategy`,
`strictFileInteractability`, `proxy`, `timeouts`, `acceptInsecureCerts` and
`unhandledPromptBehavior` into the fresh session or inserts the session's
defaults, then inserts the engine-reported capabilities.  The source calls
`.to_string()` on the strategy/behaviour JSON values (serde_json `Display`)
and `as_bool().unwrap()` on `strictFileInteractability` (a panic when the
caller sent a non-boolean). -/
def apply_session_capabilities {α : Type} (env : Engine α) (session0 : WebDriverSession)
    (processed0 : JsonEntries α) : RustResult (WebDriverSession × JsonEntries α) :=
  let (session, processed) :=
    match processed0.get "pageLoadStrategy" with
    | some strategy =>
        ({ session0 with page_loading_strategy := strategy.render env.showNum }, processed0)
    | none =>
        (session0, processed0.insert "pageLoadStrategy" (.str session0.page_loading_strategy))
  let step2 : Option (WebDriverSession × JsonEntries α) :=
    match processed.get "strictFileInteractability" with
    | some strict_file_interactability =>
        match strict_file_interactability.asBool with
        | some b => some ({ session with strict_file_interactability := b }, processed)
        | none => none
    | none =>
        some (session,
          processed.insert "strictFileInteractability" (.bool session.strict_file_interactability))
  match step2 with
  | none => .panicked "called Option::unwrap on a None value"
  | some (session, processed) =>
    let processed :=
      match processed.get "proxy" with
      | some _ => processed
      | none => processed.insert "proxy" (.obj .nil)
    let session :=
      match processed.get "timeouts" with
      | some timeouts =>
        let session :=
          match Json.getKey "script" timeouts with
          | some script_timeout_value => { session with script_timeout := script_timeout_value.asU64 }
          | none => session
        let session :=
          match Json.getKey "pageLoad" timeouts with
          | some load_timeout_value =>
            match load_timeout_value.asU64 with
            | some load_timeout => { session with load_timeout := load_timeout }
            | none => session
          | none => session
        let session :=
          match Json.getKey "implicit" timeouts with
          | some implicit_wait_timeout_value =>
            match implicit_wait_timeout_value.asU64 with
            | some implicit_wait_timeout => { session with implicit_wait_timeout := implicit_wait_timeout }
            | none => session
          | none => session
        session
      | none => session
    let processed := processed.insert "timeouts" (.obj
      (.cons "script" (match session.script_timeout with | some t => .intNum t | none => .null)
      (.cons "pageLoad" (.intNum session.load_timeout)
      (.cons "implicit" (.intNum session.implicit_wait_timeout) .nil))))
    let processed :=
      match processed.get "acceptInsecureCerts" with
      | some _ => processed
      | none => processed.insert "acceptInsecureCerts" (.bool env.servoCapabilities.accept_insecure_certs)
    let (session, processed) :=
      match processed.get "unhandledPromptBehavior" with
      | some unhandled_prompt_behavior =>
          ({ session with unhandled_prompt_behavior := unhandled_prompt_behavior.render env.showNum },
           processed)
      | none =>
          (session,
           processed.insert "unhandledPromptBehavior" (.str session.unhandled_prompt_behavior))
    let processed := processed.insert "browserName" (.str env.servoCapabilities.browser_name)
    let processed := processed.insert "browserVersion" (.str env.servoCapabilities.browser_version)
    let processed := processed.insert "platformName"
      (.str ((env.servoCapabilities.platform_name).getD "unknown"))
    let processed := processed.insert "setWindowRect" (.bool env.servoCapabilities.set_window_rect)
    .value (session, processed)

/-- The capability-processing step at the top of `handle_new_session`: legacy
requests yield empty capabilities; W3C requests are matched by the external
`match_browser` (answered by the oracle), which may fail. -/
def processed_capabilities_of {α : Type} (env : Engine α) (parameters : NewSessionParameters α) :
    Except WebDriverError (Option (JsonEntries α)) :=
  match parameters with
  | .legacy => .ok (some .nil)
  | .spec capabilities => env.matchBrowser capabilities

/-- Mirrors `handle_new_session`: process capabilities; if no session exists,
acquire the focused top-level context, build a fresh session with the
defaults, apply the capability overrides, store the session and answer with
its id and the merged capabilities; if a session already exists, fail
`UnknownError("Session already created")`. -/
def handle_new_session {α : Type} (env : Engine α) (h : Handler)
    (parameters : NewSessionParameters α) : HandlerResult α :=
  match processed_capabilities_of env parameters with
  | .error e => (.err e, h, [])
  | .ok processed_capabilities =>
    if h.session.isNone then
      match processed_capabilities with
      | some processed =>
        match focus_top_level_browsing_context_id env with
        | (.error e, msgs) => (.err e, h, msgs)
        | (.ok top_level_browsing_context_id, msgs) =>
          let browsing_context_id := top_level_browsing_context_id
          let session := WebDriverSession.new env.newUuid browsing_context_id
            top_level_browsing_context_id
          match apply_session_capabilities env session processed with
          | .panicked m => (.panic m, h, msgs)
          | .value (session, processed) =>
            (.ok (.newSession session.id (.obj processed)),
             { h with session := some session }, msgs)
      | none => (.ok .void, h, [])
    else
      (.err (WebDriverError.new .unknownError "Session already created"), h, [])

/-- Mirrors `wait_for_load`: select on the load-status receiver against an
`after(load_timeout)` timer.  The message wins exactly when it arrives
strictly before the timer fires. -/
def wait_for_load {α : Type} (env : Engine α) (h : Handler) :
    Except WebDriverError (WebDriverResponse α) :=
  match h.sessionResult with
  | .error e => .error e
  | .ok session =>
    match env.loadStatusArrival with
    | some t =>
        if t < session.load_timeout then .ok .void
        else .error (WebDriverError.new .timeout "Load timed out")
    | none => .error (WebDriverError.new .timeout "Load timed out")

/-- Mirrors `handle_get`: parse the URL (InvalidArgument on failure, before
anything is sent), send `LoadUrl` with a cloned load-status sender, then wait
for the load. -/
def handle_get {α : Type} (env : Engine α) (h : Handler) (parameters : GetParameters) :
    HandlerResult α :=
  match env.parseUrl parameters.url with
  | none => (.err (WebDriverError.new .invalidArgument "Invalid URL"), h, [])
  | some url =>
    match h.sessionResult with
    | .error e => (.err e, h, [])
    | .ok session =>
      let msg := ConstellationMsg.webDriverCommand
        (.loadUrl session.top_level_browsing_context_id url)
      match wait_for_load env h with
      | .ok r => (.ok r, h, [msg])
      | .error e => (.err e, h, [msg])

/-- Mirrors `handle_refresh`: send `Refresh` with a cloned load-status
sender, then wait for the load. -/
def handle_refresh {α : Type} (env : Engine α) (h : Handler) : HandlerResult α :=
  match h.sessionResult with
  | .error e => (.err e, h, [])
  | .ok session =>
    let msg := ConstellationMsg.webDriverCommand (.refresh session.top_level_browsing_context_id)
    match wait_for_load env h with
    | .ok r => (.ok r, h, [msg])
    | .error e => (.err e, h, [msg])

/-- Mirrors `handle_current_url`. -/
def handle_current_url {α : Type} (env : Engine α) (h : Handler) : HandlerResult α :=
  match top_level_script_command h .getUrl with
  | .error e => (.err e, h, [])
  | .ok m => (.ok (.generic (.str env.urlReply)), h, [m])

/-- Mirrors `handle_window_size`. -/
def handle_window_size {α : Type} (env : Engine α) (h : Handler) : HandlerResult α :=
  match h.sessionResult with
  | .error e => (.err e, h, [])
  | .ok session =>
    let m := ConstellationMsg.webDriverCommand (.getWindowSize session.top_level_browsing_context_id)
    (.ok (.windowRect 0 0 env.windowSizeReply.1 env.windowSizeReply.2), h, [m])

/-- Mirrors `handle_set_window_size`: send `SetWindowSize` (absent dimensions
default to 0), spawn the deferred `GetWindowSize` probe (sent after
`resize_timeout`), and answer with the engine-reported size. -/
def handle_set_window_size {α : Type} (env : Engine α) (h : Handler)
    (params : WindowRectParameters) : HandlerResult α :=
  let width := (params.width).getD 0
  let height := (params.height).getD 0
  match h.sessionResult with
  | .error e => (.err e, h, [])
  | .ok session =>
    let m1 := ConstellationMsg.webDriverCommand
      (.setWindowSize session.top_level_browsing_context_id width height)
    let m2 := ConstellationMsg.webDriverCommand
      (.getWindowSize session.top_level_browsing_context_id)
    (.ok (.windowRect 0 0 env.windowSizeReply.1 env.windowSizeReply.2), h, [m1, m2])

/-- Mirrors `handle_is_enabled`. -/
def handle_is_enabled {α : Type} (env : Engine α) (h : Handler) (element : String) :
    HandlerResult α :=
  match top_level_script_command h (.isEnabled element) with
  | .error e => (.err e, h, [])
  | .ok m =>
    match env.isEnabledReply with
    | .ok is_enabled => (.ok (.generic (.bool is_enabled)), h, [m])
    | .error error => (.err (WebDriverError.new error ""), h, [m])

/-- Mirrors `handle_is_selected`. -/
def handle_is_selected {α : Type} (env : Engine α) (h : Handler) (element : String) :
    HandlerResult α :=
  match top_level_script_command h (.isSelected element) with
  | .error e => (.err e, h, [])
  | .ok m =>
    match env.isSelectedReply with
    | .ok is_selected => (.ok (.generic (.bool is_selected)), h, [m])
    | .error error => (.err (WebDriverError.new error ""), h, [m])

/-- Mirrors `handle_go_back`. -/
def handle_go_back {α : Type} (h : Handler) : HandlerResult α :=
  match h.sessionResult with
  | .error e => (.err e, h, [])
  | .ok session =>
    (.ok .void, h, [.traverseHistory session.top_level_browsing_context_id (.back 1)])

/-- Mirrors `handle_go_forward`. -/
def handle_go_forward {α : Type} (h : Handler) : HandlerResult α :=
  match h.sessionResult with
  | .error e => (.err e, h, [])
  | .ok session =>
    (.ok .void, h, [.traverseHistory session.top_level_browsing_context_id (.forward 1)])

/-- Mirrors `handle_title`. -/
def handle_title {α : Type} (env : Engine α) (h : Handler) : HandlerResult α :=
  match top_level_script_command h .getTitle with
  | .error e => (.err e, h, [])
  | .ok m => (.ok (.generic (.str env.titleReply)), h, [m])

/-- Mirrors `handle_window_handle`: the session id is the (single) window
handle.  The source unwraps the session option (a panic when absent; the
dispatch gate makes that unreachable). -/
def handle_window_handle {α : Type} (h : Handler) : HandlerResult α :=
  match h.session with
  | none => (.panic "called Option::unwrap on a None value", h, [])
  | some session => (.ok (.generic (.str session.id)), h, [])

/-- Mirrors `handle_window_handles`: the singleton list of the session id. -/
def handle_window_handles {α : Type} (h : Handler) : HandlerResult α :=
  match h.session with
  | none => (.panic "called Option::unwrap on a None value", h, [])
  | some session => (.ok (.generic (.arr (.cons (.str session.id) .nil))), h, [])

/-- Mirrors `handle_find_element`: CSS/LinkText/PartialLinkText/TagName
dispatch a find script command; any other strategy fails
`UnsupportedOperation` before anything is sent. -/
def handle_find_element {α : Type} (env : Engine α) (h : Handler)
    (parameters : LocatorParameters) : HandlerResult α :=
  let cmd : Except WebDriverError WebDriverScriptCommand :=
    match parameters.strategy with
    | .cssSelector => .ok (.findElementCSS parameters.value)
    | .linkText => .ok (.findElementLinkText parameters.value false)
    | .partialLinkText => .ok (.findElementLinkText parameters.value true)
    | .tagName => .ok (.findElementTagName parameters.value)
    | _ => .error (WebDriverError.new .unsupportedOperation "Unsupported locator strategy")
  match cmd with
  | .error e => (.err e, h, [])
  | .ok cmd =>
    match browsing_context_script_command h cmd with
    | .error e => (.err e, h, [])
    | .ok m =>
      match env.findElementReply with
      | .ok value =>
        let value_resp : Json α :=
          match value with
          | none => .null
          | some x => .obj (.cons webElementKey (.str x) .nil)
        (.ok (.generic value_resp), h, [m])
      | .error error => (.err (WebDriverError.new error ""), h, [m])

/-- Mirrors `handle_find_elements` (same strategy coverage, list reply). -/
def handle_find_elements {α : Type} (env : Engine α) (h : Handler)
    (parameters : LocatorParameters) : HandlerResult α :=
  let cmd : Except WebDriverError WebDriverScriptCommand :=
    match parameters.strategy with
    | .cssSelector => .ok (.findElementsCSS parameters.value)
    | .linkText => .ok (.findElementsLinkText parameters.value false)
    | .partialLinkText => .ok (.findElementsLinkText parameters.value true)
    | .tagName => .ok (.findElementsTagName parameters.value)
    | _ => .error (WebDriverError.new .unsupportedOperation "Unsupported locator strategy")
  match cmd with
  | .error e => (.err e, h, [])
  | .ok cmd =>
    match browsing_context_script_command h cmd with
    | .error e => (.err e, h, [])
    | .ok m =>
      match env.findElementsReply with
      | .ok value =>
        let resp_value : List (Json α) :=
          value.map fun x => .obj (.cons webElementKey (.str x) .nil)
        (.ok (.generic (.arr (JsonList.ofList resp_value))), h, [m])
      | .error error => (.err (WebDriverError.new error ""), h, [m])

/-- Mirrors `handle_find_element_element` (find from an element root). -/
def handle_find_element_element {α : Type} (env : Engine α) (h : Handler) (element : String)
    (parameters : LocatorParameters) : HandlerResult α :=
  let cmd : Except WebDriverError WebDriverScriptCommand :=
    match parameters.strategy with
    | .cssSelector => .ok (.findElementElementCSS parameters.value element)
    | .linkText => .ok (.findElementElementLinkText parameters.value element false)
    | .partialLinkText => .ok (.findElementElementLinkText parameters.value element true)
    | .tagName => .ok (.findElementElementTagName parameters.value element)
    | _ => .error (WebDriverError.new .unsupportedOperation "Unsupported locator strategy")
  match cmd with
  | .error e => (.err e, h, [])
  | .ok cmd =>
    match browsing_context_script_command h cmd with
    | .error e => (.err e, h, [])
    | .ok m =>
      match env.findElementReply with
      | .ok value =>
        let value_resp : Json α :=
          match value with
          | none => .null
          | some x => .obj (.cons webElementKey (.str x) .nil)
        (.ok (.generic value_resp), h, [m])
      | .error error => (.err (WebDriverError.new error ""), h, [m])

/-- Mirrors `handle_find_elements_from_element`. -/
def handle_find_elements_from_element {α : Type} (env : Engine α) (h : Handler) (element : String)
    (parameters : LocatorParameters) : HandlerResult α :=
  let cmd : Except WebDriverError WebDriverScriptCommand :=
    match parameters.strategy with
    | .cssSelector => .ok (.findElementElementsCSS parameters.value element)
    | .linkText => .ok (.findElementElementsLinkText parameters.value element false)
    | .partialLinkText => .ok (.findElementElementsLinkText parameters.value element true)
    | .tagName => .ok (.findElementElementsTagName parameters.value element)
    | _ => .error (WebDriverError.new .unsupportedOperation "Unsupported locator strategy")
  match cmd with
  | .error e => (.err e, h, [])
  | .ok cmd =>
    match browsing_context_script_command h cmd with
    | .error e => (.err e, h, [])
    | .ok m =>
      match env.findElementsReply with
      | .ok value =>
        let resp_value : List (Json α) :=
          value.map fun x => .obj (.cons webElementKey (.str x) .nil)
        (.ok (.generic (.arr (JsonList.ofList resp_value))), h, [m])
      | .error error => (.err (WebDriverError.new error ""), h, [m])

/-- Mirrors `switch_to_frame`: frame-by-index is rejected
`UnsupportedOperation`; otherwise ask the engine for the browsing context id
and store it in the session. -/
def switch_to_frame {α : Type} (env : Engine α) (h : Handler) (frame_id : WebDriverFrameId) :
    HandlerResult α :=
  match frame_id with
  | .short _ =>
      (.err (WebDriverError.new .unsupportedOperation "Selecting frame by id not supported"), h, [])
  | _ =>
    match browsing_context_script_command h (.getBrowsingContextId frame_id) with
    | .error e => (.err e, h, [])
    | .ok m =>
      match env.browsingContextIdReply with
      | .ok browsing_context_id =>
        match h.session with
        | none => (.err (WebDriverError.new .sessionNotCreated "Session not created"), h, [m])
        | some session =>
            (.ok .void,
             { h with session := some { session with browsing_context_id := browsing_context_id } },
             [m])
      | .error error => (.err (WebDriverError.new error ""), h, [m])

/-- Mirrors `handle_switch_to_frame`: a null frame id selects the top-level
context directly; a numeric or element id goes through `switch_to_frame`. -/
def handle_switch_to_frame {α : Type} (env : Engine α) (h : Handler)
    (parameters : SwitchToFrameParameters) : HandlerResult α :=
  match parameters.id with
  | none =>
    match h.session with
    | none => (.err (WebDriverError.new .sessionNotCreated "Session not created"), h, [])
    | some session =>
        let session := { session with browsing_context_id := session.top_level_browsing_context_id }
        (.ok .void, { h with session := some session }, [])
  | some (.short x) => switch_to_frame env h (.short x)
  | some (.element x) => switch_to_frame env h (.element x)

/-- Mirrors `handle_switch_to_parent_frame`. -/
def handle_switch_to_parent_frame {α : Type} (env : Engine α) (h : Handler) : HandlerResult α :=
  switch_to_frame env h .parent

/-- Mirrors `handle_switch_to_window`: succeeds exactly on the session id
(the single window handle); otherwise `NoSuchWindow`.  The source unwraps
the session option. -/
def handle_switch_to_window {α : Type} (h : Handler)
    (parameters : SwitchToWindowParameters) : HandlerResult α :=
  match h.session with
  | none => (.panic "called Option::unwrap on a None value", h, [])
  | some session =>
    if parameters.handle = session.id then (.ok .void, h, [])
    else (.err (WebDriverError.new .noSuchWindow "No such window"), h, [])

/-- Mirrors `handle_element_rect`. -/
def handle_element_rect {α : Type} (env : Engine α) (h : Handler) (element : String) :
    HandlerResult α :=
  match browsing_context_script_command h (.getElementRect element) with
  | .error e => (.err e, h, [])
  | .ok m =>
    match env.elementRectReply with
    | .ok (x, y, width, height) => (.ok (.elementRect x y width height), h, [m])
    | .error error => (.err (WebDriverError.new error ""), h, [m])

/-- Mirrors `handle_element_text`. -/
def handle_element_text {α : Type} (env : Engine α) (h : Handler) (element : String) :
    HandlerResult α :=
  match browsing_context_script_command h (.getElementText element) with
  | .error e => (.err e, h, [])
  | .ok m =>
    match env.elementTextReply with
    | .ok value => (.ok (.generic (.str value)), h, [m])
    | .error error => (.err (WebDriverError.new error ""), h, [m])

/-- Mirrors `handle_active_element` (the reply is an optional element id,
with no error branch). -/
def handle_active_element {α : Type} (env : Engine α) (h : Handler) : HandlerResult α :=
  match browsing_context_script_command h .getActiveElement with
  | .error e => (.err e, h, [])
  | .ok m =>
    let value : Json α :=
      match env.activeElementReply with
      | none => .null
      | some x => .obj (.cons webElementKey (.str x) .nil)
    (.ok (.generic value), h, [m])

/-- Mirrors `handle_element_tag_name`. -/
def handle_element_tag_name {α : Type} (env : Engine α) (h : Handler) (element : String) :
    HandlerResult α :=
  match browsing_context_script_command h (.getElementTagName element) with
  | .error e => (.err e, h, [])
  | .ok m =>
    match env.elementTagNameReply with
    | .ok value => (.ok (.generic (.str value)), h, [m])
    | .error error => (.err (WebDriverError.new error ""), h, [m])

/-- Mirrors `handle_element_attribute` (optional string reply). -/
def handle_element_attribute {α : Type} (env : Engine α) (h : Handler) (element : String)
    (name : String) : HandlerResult α :=
  match browsing_context_script_command h (.getElementAttribute element name) with
  | .error e => (.err e, h, [])
  | .ok m =>
    match env.elementAttributeReply with
    | .ok value =>
      (.ok (.generic (match value with | none => .null | some s => .str s)), h, [m])
    | .error error => (.err (WebDriverError.new error ""), h, [m])

/-- Mirrors `handle_element_property` (JS value reply, passed through the
JS-result encoder). -/
def handle_element_property {α : Type} (env : Engine α) (h : Handler) (element : String)
    (name : String) : HandlerResult α :=
  match browsing_context_script_command h (.getElementProperty element name) with
  | .error e => (.err e, h, [])
  | .ok m =>
    match env.elementPropertyReply with
    | .ok value => (.ok (.generic (serializeJSValue value)), h, [m])
    | .error error => (.err (WebDriverError.new error ""), h, [m])

/-- Mirrors `handle_element_css`. -/
def handle_element_css {α : Type} (env : Engine α) (h : Handler) (element : String)
    (name : String) : HandlerResult α :=
  match browsing_context_script_command h (.getElementCSS element name) with
  | .error e => (.err e, h, [])
  | .ok m =>
    match env.elementCssReply with
    | .ok value => (.ok (.generic (.str value)), h, [m])
    | .error error => (.err (WebDriverError.new error ""), h, [m])

/-- Mirrors `handle_get_cookies` (no error branch in the reply). -/
def handle_get_cookies {α : Type} (env : Engine α) (h : Handler) : HandlerResult α :=
  match browsing_context_script_command h .getCookies with
  | .error e => (.err e, h, [])
  | .ok m =>
    (.ok (.cookies (env.getCookiesReply.map cookie_msg_to_cookie)), h, [m])

/-- Mirrors `handle_get_cookie`: asks the engine for the cookies matching
`name` and unconditionally unwraps the FIRST element of the reply list (a
panic when the engine answers with an empty list). -/
def handle_get_cookie {α : Type} (env : Engine α) (h : Handler) (name : String) :
    HandlerResult α :=
  match browsing_context_script_command h (.getCookie name) with
  | .error e => (.err e, h, [])
  | .ok m =>
    match (env.getCookieReply.map cookie_msg_to_cookie).head? with
    | none => (.panic "called Option::unwrap on a None value", h, [m])
    | some response => (.ok (.cookie response), h, [m])

/-- Mirrors `handle_add_cookie`: builds the raw cookie from the request
(secure/http-only always populated, domain/path when present; no expiry),
and maps the engine-signaled cookie errors to their WebDriver kinds. -/
def handle_add_cookie {α : Type} (env : Engine α) (h : Handler)
    (params : AddCookieParameters) : HandlerResult α :=
  let cookie : RawCookie :=
    { name := params.name
      value := params.value
      path := params.path
      domain := params.domain
      expires := none
      secure := some params.secure
      httpOnly := some params.httpOnly
      sameSite := none }
  match browsing_context_script_command h (.addCookie cookie) with
  | .error e => (.err e, h, [])
  | .ok m =>
    match env.addCookieReply with
    | .ok _ => (.ok .void, h, [m])
    | .error .invalidDomain =>
        (.err (WebDriverError.new .invalidCookieDomain "Invalid cookie domain"), h, [m])
    | .error .unableToSetCookie =>
        (.err (WebDriverError.new .unableToSetCookie "Unable to set cookie"), h, [m])

/-- Mirrors `handle_delete_cookies`. -/
def handle_delete_cookies {α : Type} (env : Engine α) (h : Handler) : HandlerResult α :=
  match browsing_context_script_command h .deleteCookies with
  | .error e => (.err e, h, [])
  | .ok m =>
    match env.deleteCookiesReply with
    | .ok _ => (.ok .void, h, [m])
    | .error error => (.err (WebDriverError.new error ""), h, [m])

/-- Mirrors `handle_dismiss_alert` (prompts are unimplemented, so this always
succeeds). -/
def handle_dismiss_alert {α : Type} (h : Handler) : HandlerResult α :=
  (.ok .void, h, [])

/-- Mirrors `handle_get_timeouts` (the source's `ok_or` carries an empty
message here). -/
def handle_get_timeouts {α : Type} (h : Handler) : HandlerResult α :=
  match h.session with
  | none => (.err (WebDriverError.new .sessionNotCreated ""), h, [])
  | some session =>
      (.ok (.timeouts session.script_timeout session.load_timeout session.implicit_wait_timeout),
       h, [])

/-- Mirrors `handle_set_timeouts`: each supplied timeout overwrites the
session's value (the script timeout may be set to null = unbounded). -/
def handle_set_timeouts {α : Type} (h : Handler) (parameters : TimeoutsParameters) :
    HandlerResult α :=
  match h.session with
  | none => (.err (WebDriverError.new .sessionNotCreated ""), h, [])
  | some session =>
    let session :=
      match parameters.script with
      | some timeout => { session with script_timeout := timeout }
      | none => session
    let session :=
      match parameters.page_load with
      | some timeout => { session with load_timeout := timeout }
      | none => session
    let session :=
      match parameters.implicit with
      | some timeout => { session with implicit_wait_timeout := timeout }
      | none => session
    (.ok .void, { h with session := some session }, [])

/-- Mirrors `handle_get_page_source`. -/
def handle_get_page_source {α : Type} (env : Engine α) (h : Handler) : HandlerResult α :=
  match browsing_context_script_command h .getPageSource with
  | .error e => (.err e, h, [])
  | .ok m =>
    match env.pageSourceReply with
    | .ok source => (.ok (.generic (.str source)), h, [m])
    | .error error => (.err (WebDriverError.new error ""), h, [m])

/-- Membership test in the input state table. -/
def WebDriverSession.hasSource (s : WebDriverSession) (id : String) : Bool :=
  s.input_state_table.any fun p => p.1 = id

/-- Look up a source state in the input state table. -/
def WebDriverSession.getSource (s : WebDriverSession) (id : String) : Option InputSourceState :=
  (s.input_state_table.find? fun p => p.1 = id).map Prod.snd

/-- Replace the state of an existing source. -/
def WebDriverSession.setSource (s : WebDriverSession) (id : String) (st : InputSourceState) :
    WebDriverSession :=
  { s with input_state_table := s.input_state_table.map fun p => if p.1 = id then (p.1, st) else p }

/-- Modelled from the spec: a source id not yet present in the input state
table is inserted with a fresh state of the sequence's declared kind (§4.3 of
the spec; the implementation lives in the missing `actions.rs`). -/
def ensureSource (s : WebDriverSession) (id : String) (kind : SourceKind) : WebDriverSession :=
  if s.hasSource id then s
  else { s with input_state_table := s.input_state_table ++ [(id, freshSourceState kind)] }

/-- Modelled from the spec: the session-state effect of one action of source
`id` (missing `actions.rs`, §§4.3–4.4 of the spec).  KeyDown normalizes the
key, adds it to the pressed set and immediately appends the reversal KeyUp to
the input cancel list; KeyUp removes the key; PointerDown adds the button and
appends the reversal PointerUp; PointerUp removes the button; PointerMove
updates the coordinates; Pause contributes only to (unmodelled) timing.
Actions whose kind does not match the source's state leave it unchanged. -/
def applyAction (normalizeKey : String → String) (id : String) (a : ActionItem)
    (s : WebDriverSession) : WebDriverSession :=
  match a with
  | .pause _ => s
  | .keyDown raw =>
    let key := normalizeKey raw
    match s.getSource id with
    | some (.key pressed) =>
      let s := s.setSource id (.key (if key ∈ pressed then pressed else pressed ++ [key]))
      { s with input_cancel_list := s.input_cancel_list ++ [⟨id, .key, [.keyUp key]⟩] }
    | _ => s
  | .keyUp raw =>
    let key := normalizeKey raw
    match s.getSource id with
    | some (.key pressed) => s.setSource id (.key (pressed.filter fun k => k ≠ key))
    | _ => s
  | .pointerMove x y =>
    match s.getSource id with
    | some (.pointer subtype pressed _ _) => s.setSource id (.pointer subtype pressed x y)
    | _ => s
  | .pointerDown button =>
    match s.getSource id with
    | some (.pointer subtype pressed x y) =>
      let s := s.setSource id
        (.pointer subtype (if button ∈ pressed then pressed else pressed ++ [button]) x y)
      { s with input_cancel_list := s.input_cancel_list ++ [⟨id, .pointer subtype, [.pointerUp button]⟩] }
    | _ => s
  | .pointerUp button =>
    match s.getSource id with
    | some (.pointer subtype pressed x y) =>
        s.setSource id (.pointer subtype (pressed.filter fun b => b ≠ button) x y)
    | _ => s

/-- The engine events one action emits (pauses emit nothing). -/
def actionMessages (id : String) (a : ActionItem) : List ConstellationMsg :=
  match a with
  | .pause _ => []
  | a => [.synthesizedInputEvent id a]

/-- Modelled from the spec: dispatch of one action of one sequence: ensure
the source exists, ask the engine to perform the action (the oracle may
signal a failure, e.g. `MoveTargetOutOfBounds` for an out-of-viewport pointer
move), and on success commit the state effect and emit the event.  A failed
action commits nothing of its own; previously committed state remains. -/
def dispatch_action {α : Type} (env : Engine α) (seq : ActionSequence) (a : ActionItem)
    (s : WebDriverSession) : Option ErrorStatus × WebDriverSession × List ConstellationMsg :=
  let s := ensureSource s seq.id seq.kind
  match env.actionEmit seq.id a with
  | some e => (some e, s, [])
  | none => (none, applyAction env.normalizeKey seq.id a s, actionMessages seq.id a)

/-- Modelled from the spec: one tick — every sequence dispatches its action
at index `t` (sequences shorter than `t` contribute nothing); the first
failure aborts the tick and is propagated. -/
def dispatch_tick {α : Type} (env : Engine α) (t : Nat) :
    List ActionSequence → WebDriverSession →
    Option ErrorStatus × WebDriverSession × List ConstellationMsg
  | [], s => (none, s, [])
  | seq :: rest, s =>
    match seq.actions.get? t with
    | none => dispatch_tick env t rest s
    | some a =>
      match dispatch_action env seq a s with
      | (some e, s1, msgs) => (some e, s1, msgs)
      | (none, s1, msgs) =>
        let (r, s2, msgs2) := dispatch_tick env t rest s1
        (r, s2, msgs ++ msgs2)

/-- Modelled from the spec: run the given tick indices in order, aborting on
the first failure. -/
def dispatch_tick_list {α : Type} (env : Engine α) (actions : List ActionSequence) :
    List Nat → WebDriverSession →
    Option ErrorStatus × WebDriverSession × List ConstellationMsg
  | [], s => (none, s, [])
  | t :: ts, s =>
    match dispatch_tick env t actions s with
    | (some e, s1, msgs) => (some e, s1, msgs)
    | (none, s1, msgs) =>
      let (r, s2, msgs2) := dispatch_tick_list env actions ts s1
      (r, s2, msgs ++ msgs2)

/-- The number of ticks of an action-sequence list: the maximum sequence
length. -/
def numTicks (actions : List ActionSequence) : Nat :=
  actions.foldl (fun n seq => max n seq.actions.length) 0

/-- Modelled from the spec: `dispatch_actions` of the missing `actions.rs`
(§4.4 of the spec): tick-synchronized dispatch of a list of action sequences
over the session state.  Tick durations and the waits between ticks are
real-time behaviour with no session-state effect and are not modelled.
Returns the first failure (if any), the final session state (state already
committed remains on failure) and the emitted engine events. -/
def dispatch_actions {α : Type} (env : Engine α) (s : WebDriverSession)
    (actions : List ActionSequence) :
    Option ErrorStatus × WebDriverSession × List ConstellationMsg :=
  dispatch_tick_list env actions (List.range (numTicks actions)) s

/-- Mirrors `handle_perform_actions`. -/
def handle_perform_actions {α : Type} (env : Engine α) (h : Handler)
    (parameters : ActionsParameters) : HandlerResult α :=
  match h.session with
  | none => (.err (WebDriverError.new .sessionNotCreated "Session not created"), h, [])
  | some session =>
    match dispatch_actions env session parameters.actions with
    | (some error, session1, msgs) =>
        (.err (WebDriverError.new error ""), { h with session := some session1 }, msgs)
    | (none, session1, msgs) => (.ok .void, { h with session := some session1 }, msgs)

/-- Mirrors `handle_release_actions`: take the cancel list out of the session
reversed (leaving it empty), dispatch it, and — only if the dispatch
succeeded — clear the input state table. -/
def handle_release_actions {α : Type} (env : Engine α) (h : Handler) : HandlerResult α :=
  match h.session with
  | none => (.err (WebDriverError.new .sessionNotCreated "Session not created"), h, [])
  | some session =>
    let input_cancel_list := session.input_cancel_list.reverse
    let session := { session with input_cancel_list := [] }
    match dispatch_actions env session input_cancel_list with
    | (some error, session1, msgs) =>
        (.err (WebDriverError.new error ""), { h with session := some session1 }, msgs)
    | (none, session1, msgs) =>
        (.ok .void, { h with session := some { session1 with input_state_table := [] } }, msgs)

/-- Mirrors `postprocess_js_result`: encode a successful JS value with the
JS-result encoder; map engine errors to their WebDriver kinds. -/
def postprocess_js_result {α : Type}
    (result : Except WebDriverJSError (WebDriverJSValue α)) : Outcome α :=
  match result with
  | .ok value => .ok (.generic (serializeJSValue value))
  | .error .browsingContextNotFound =>
      .err (WebDriverError.new .javascriptError "Pipeline id not found in browsing context")
  | .error .jsError =>
      .err (WebDriverError.new .javascriptError "JS evaluation raised an exception")
  | .error .staleElementReference =>
      .err (WebDriverError.new .staleElementReference "Stale element")
  | .error .timeout => .err (WebDriverError.new .timeout "")
  | .error .unknownType =>
      .err (WebDriverError.new .unsupportedOperation "Unsupported return type")

/-- Mirrors `handle_execute_script`: wrap the body in an immediately-invoked
function with no arguments and post-process the engine's result. -/
def handle_execute_script {α : Type} (env : Engine α) (h : Handler)
    (parameters : JavascriptCommandParameters) : HandlerResult α :=
  let func_body := parameters.script
  let args_string := ""
  let script := "(function() \x7b " ++ func_body ++ " \x7d)(" ++ args_string ++ ")"
  match browsing_context_script_command h (.executeScript script) with
  | .error e => (.err e, h, [])
  | .ok m => (postprocess_js_result env.jsResult, h, [m])

/-- Mirrors `handle_execute_async_script`: prepend the
`setTimeout(webdriverTimeout, …)` guard only when a script timeout is
configured, pass `window.webdriverCallback` as the callback argument, and
post-process the engine's result. -/
def handle_execute_async_script {α : Type} (env : Engine α) (h : Handler)
    (parameters : JavascriptCommandParameters) : HandlerResult α :=
  let func_body := parameters.script
  let args_string := "window.webdriverCallback"
  match h.sessionResult with
  | .error e => (.err e, h, [])
  | .ok session =>
    let timeout_script :=
      match session.script_timeout with
      | some script_timeout => "setTimeout(webdriverTimeout, " ++ toString script_timeout ++ ");"
      | none => ""
    let script := timeout_script ++ " (function(callback) \x7b " ++ func_body ++ " \x7d)(" ++
      args_string ++ ")"
    match browsing_context_script_command h (.executeAsyncScript script) with
    | .error e => (.err e, h, [])
    | .ok m => (postprocess_js_result env.jsResult, h, [m])

/-- Mirrors `handle_element_send_keys`: focus the element (aborting on an
engine error), then forward the raw text as a `SendKeys` envelope. -/
def handle_element_send_keys {α : Type} (env : Engine α) (h : Handler) (element : String)
    (keys : SendKeysParameters) : HandlerResult α :=
  match h.sessionResult with
  | .error e => (.err e, h, [])
  | .ok session =>
    let m1 := ConstellationMsg.webDriverCommand
      (.scriptCommand session.browsing_context_id (.focusElement element))
    match env.focusElementReply with
    | .error error => (.err (WebDriverError.new error ""), h, [m1])
    | .ok _ =>
      let m2 := ConstellationMsg.webDriverCommand
        (.sendKeys session.browsing_context_id keys.text)
      (.ok .void, h, [m1, m2])

/-- Mirrors `handle_element_click`: resolve the click target through the
engine; on a concrete element, insert a fresh mouse source, perform the
synthetic move(element-origin)/down(1)/up(1) sequence (the move may fail and
aborts, leaving the inserted source behind, as in the source), then remove
the source. -/
def handle_element_click {α : Type} (env : Engine α) (h : Handler) (element : String) :
    HandlerResult α :=
  match browsing_context_script_command h (.elementClick element) with
  | .error e => (.err e, h, [])
  | .ok m =>
    match env.elementClickReply with
    | .error error => (.err (WebDriverError.new error ""), h, [m])
    | .ok none => (.ok .void, h, [m])
    | .ok (some _element_id) =>
      match h.session with
      | none => (.err (WebDriverError.new .sessionNotCreated "Session not created"), h, [m])
      | some session =>
        let id := env.newUuid
        let session := { session with input_state_table :=
          session.input_state_table ++ [(id, InputSourceState.pointer .mouse [] 0 0)] }
        match env.actionEmit id (.pointerMove 0 0) with
        | some error =>
            (.err (WebDriverError.new error ""), { h with session := some session }, [m])
        | none =>
          let session := applyAction env.normalizeKey id (.pointerMove 0 0) session
          let session := applyAction env.normalizeKey id (.pointerDown 1) session
          let session := applyAction env.normalizeKey id (.pointerUp 1) session
          let msgs := [m] ++ actionMessages id (.pointerMove 0 0) ++
            actionMessages id (.pointerDown 1) ++ actionMessages id (.pointerUp 1)
          let session := { session with input_state_table :=
            session.input_state_table.filter fun p => p.1 ≠ id }
          (.ok .void, { h with session := some session }, msgs)

/-- Mirrors `take_screenshot`: poll the Controller (1 s interval, 30 s
budget) for a framebuffer; on exhaustion fail `Timeout`; assert the format is
24-bit RGB (a panic otherwise); PNG- and base64-encode (both external). -/
def take_screenshot {α : Type} (env : Engine α) (h : Handler)
    (rect : Option (Int × Int × Int × Int)) :
    RustResult (Except WebDriverError String) × List ConstellationMsg :=
  match h.sessionResult with
  | .error e => (.value (.error e), [])
  | .ok session =>
    let m := ConstellationMsg.webDriverCommand
      (.takeScreenshot session.top_level_browsing_context_id rect)
    match env.framebuffer with
    | none =>
        (.value (.error (WebDriverError.new .timeout "Taking screenshot timed out")),
         List.replicate 30 m)
    | some img =>
      if img.format = PixelFormat.rgb8 then (.value (.ok (env.pngBase64 img)), [m])
      else (.panicked "Unexpected screenshot pixel format", [m])

/-- Mirrors `handle_take_screenshot`. -/
def handle_take_screenshot {α : Type} (env : Engine α) (h : Handler) : HandlerResult α :=
  match take_screenshot env h none with
  | (.panicked msg, msgs) => (.panic msg, h, msgs)
  | (.value (.error e), msgs) => (.err e, h, msgs)
  | (.value (.ok encoded), msgs) => (.ok (.generic (.str encoded)), h, msgs)

/-- Mirrors `handle_take_element_screenshot`: query the element's bounding
client rect (absent element → `StaleElementReference`), then screenshot that
rect. -/
def handle_take_element_screenshot {α : Type} (env : Engine α) (h : Handler)
    (element : String) : HandlerResult α :=
  match browsing_context_script_command h (.getBoundingClientRect element) with
  | .error e => (.err e, h, [])
  | .ok m =>
    match env.boundingClientRectReply with
    | .error _ => (.err (WebDriverError.new .staleElementReference "Element not found"), h, [m])
    | .ok rect =>
      match take_screenshot env h (some rect) with
      | (.panicked msg, msgs) => (.panic msg, h, m :: msgs)
      | (.value (.error e), msgs) => (.err e, h, m :: msgs)
      | (.value (.ok encoded), msgs) => (.ok (.generic (.str encoded)), h, m :: msgs)

/-- Key-sorted insert (overwriting), as collecting into a `BTreeMap`. -/
def btreeInsert {α : Type} (k : String) (v : Json α) :
    List (String × Json α) → List (String × Json α)
  | [] => [(k, v)]
  | (k0, v0) :: rest =>
    match compare k k0 with
    | .lt => (k, v) :: (k0, v0) :: rest
    | .eq => (k, v) :: rest
    | .gt => (k0, v0) :: btreeInsert k v rest

/-- Mirrors `handle_get_prefs`: answer with the map from each requested name
to its current value (the preferences store is an external collaborator,
read through the oracle). -/
def handle_get_prefs {α : Type} (env : Engine α) (h : Handler)
    (parameters : GetPrefsParameters) : HandlerResult α :=
  let prefs := parameters.prefs.foldl
    (fun acc item => btreeInsert item (serializePrefValue (env.getPref item)) acc) []
  (.ok (.generic (.obj (JsonEntries.ofList prefs))), h, [])

/-- Mirrors `handle_set_prefs`: writes each (name, value) pair, in order,
into the external preferences store (a global mutable collaborator whose
mutation is outside the modelled state), then answers Void. -/
def handle_set_prefs {α : Type} (h : Handler) (_parameters : SetPrefsParameters α) :
    HandlerResult α :=
  (.ok .void, h, [])

/-- Mirrors `handle_reset_prefs`: an empty request resets everything and
answers the empty map; otherwise each named preference is reset and its
default (Missing when unknown) is answered. -/
def handle_reset_prefs {α : Type} (env : Engine α) (h : Handler)
    (parameters : GetPrefsParameters) : HandlerResult α :=
  if parameters.prefs.length = 0 then
    (.ok (.generic (.obj .nil)), h, [])
  else
    let prefs := parameters.prefs.foldl
      (fun acc item => btreeInsert item (serializePrefValue (env.resetPref item)) acc) []
    (.ok (.generic (.obj (JsonEntries.ofList prefs))), h, [])

/-- The per-command dispatch of `handle_command` (the match following the
session gate).  The final two variants model the catch-all arm for commands
the bridge does not implement (the source's message carries the Debug
rendering of the command, which is not modelled). -/
def dispatch_webdriver_command {α : Type} (env : Engine α) (h : Handler) :
    WebDriverCommand α → HandlerResult α
  | .newSession parameters => handle_new_session env h parameters
  | .deleteSession => handle_delete_session h
  | .status => handle_status h
  | .addCookie parameters => handle_add_cookie env h parameters
  | .get parameters => handle_get env h parameters
  | .getCurrentUrl => handle_current_url env h
  | .getWindowRect => handle_window_size env h
  | .setWindowRect parameters => handle_set_window_size env h parameters
  | .isEnabled element => handle_is_enabled env h element
  | .isSelected element => handle_is_selected env h element
  | .goBack => handle_go_back h
  | .goForward => handle_go_forward h
  | .refresh => handle_refresh env h
  | .getTitle => handle_title env h
  | .getWindowHandle => handle_window_handle h
  | .getWindowHandles => handle_window_handles h
  | .switchToFrame parameters => handle_switch_to_frame env h parameters
  | .switchToParentFrame => handle_switch_to_parent_frame env h
  | .switchToWindow parameters => handle_switch_to_window h parameters
  | .findElement parameters => handle_find_element env h parameters
  | .findElements parameters => handle_find_elements env h parameters
  | .findElementElement element parameters => handle_find_element_element env h element parameters
  | .findElementElements element parameters =>
      handle_find_elements_from_element env h element parameters
  | .getNamedCookie name => handle_get_cookie env h name
  | .getCookies => handle_get_cookies env h
  | .getActiveElement => handle_active_element env h
  | .getElementRect element => handle_element_rect env h element
  | .getElementText element => handle_element_text env h element
  | .getElementTagName element => handle_element_tag_name env h element
  | .getElementAttribute element name => handle_element_attribute env h element name
  | .getElementProperty element name => handle_element_property env h element name
  | .getCSSValue element name => handle_element_css env h element name
  | .getPageSource => handle_get_page_source env h
  | .performActions parameters => handle_perform_actions env h parameters
  | .releaseActions => handle_release_actions env h
  | .executeScript parameters => handle_execute_script env h parameters
  | .executeAsyncScript parameters => handle_execute_async_script env h parameters
  | .elementSendKeys element keys => handle_element_send_keys env h element keys
  | .elementClick element => handle_element_click env h element
  | .dismissAlert => handle_dismiss_alert h
  | .deleteCookies => handle_delete_cookies env h
  | .getTimeouts => handle_get_timeouts h
  | .setTimeouts parameters => handle_set_timeouts h parameters
  | .takeScreenshot => handle_take_screenshot env h
  | .takeElementScreenshot element => handle_take_element_screenshot env h element
  | .extension (.getPrefs parameters) => handle_get_prefs env h parameters
  | .extension (.setPrefs parameters) => handle_set_prefs h parameters
  | .extension (.resetPrefs parameters) => handle_reset_prefs env h parameters
  | .deleteCookie _ => (.err (WebDriverError.new .unsupportedOperation "Command not implemented"), h, [])
  | .acceptAlert => (.err (WebDriverError.new .unsupportedOperation "Command not implemented"), h, [])

/-- Mirrors `handle_command` of the `WebDriverHandler` implementation: unless
the command is NewSession or Status, a session must exist
(`SessionNotCreated` otherwise, before any dispatch); then dispatch. -/
def handle_command {α : Type} (env : Engine α) (h : Handler) (cmd : WebDriverCommand α) :
    HandlerResult α :=
  match cmd with
  | .newSession _ => dispatch_webdriver_command env h cmd
  | .status => dispatch_webdriver_command env h cmd
  | _ =>
    match h.session with
    | some _ => dispatch_webdriver_command env h cmd
    | none => (.err (WebDriverError.new .sessionNotCreated "Session not created"), h, [])

/-- Mirrors `teardown_session`. -/
def teardown_session (h : Handler) : Handler :=
  { h with session := none }

/-- A concrete engine oracle used by the witness checks (number payloads
instantiated with `Int`). -/
def testEngine : Engine Int :=
  { servoCapabilities :=
      { browser_name := "servo"
        browser_version := "0.0.1"
        platform_name := some "linux"
        accept_insecure_certs := false
        set_window_rect := true }
    matchBrowser := fun _ => .ok (some .nil)
    newUuid := "00000000-0000-4000-8000-000000000001"
    showNum := fun n => toString n
    normalizeKey := fun k => k
    parseUrl := fun url => if url = "::not a url::" then none else some url
    pngBase64 := fun _ => "cGpn"
    focusedTopLevelBrowsingContext := some 7
    loadStatusArrival := some 0
    urlReply := "http://example.org/"
    windowSizeReply := (800, 600)
    titleReply := "title"
    isEnabledReply := .ok true
    isSelectedReply := .ok false
    findElementReply := .ok (some "elt-1")
    findElementsReply := .ok ["elt-1"]
    browsingContextIdReply := .ok 7
    elementRectReply := .ok (0, 0, 10, 10)
    elementTextReply := .ok "text"
    activeElementReply := some "elt-1"
    elementTagNameReply := .ok "div"
    elementAttributeReply := .ok none
    elementPropertyReply := .ok .undefined
    elementCssReply := .ok "red"
    getCookiesReply := []
    getCookieReply := []
    addCookieReply := .ok ()
    deleteCookiesReply := .ok ()
    pageSourceReply := .ok "<html></html>"
    jsResult := .ok .undefined
    focusElementReply := .ok ()
    elementClickReply := .ok none
    actionEmit := fun _ _ => none
    framebuffer := none
    boundingClientRectReply := .ok (0, 0, 1, 1)
    getPref := fun _ => .missing
    resetPref := fun _ => .missing }

/-- A concrete session used by the witness checks. -/
def testSession : WebDriverSession :=
  WebDriverSession.new "11111111-1111-4111-8111-111111111111" 7 7

/-- A handler holding `testSession`. -/
def testHandler : Handler :=
  { session := some testSession, resize_timeout := 500 }

/-- A session with one key source pressing "a" and the corresponding entry on
the input cancel list, as left behind by a dispatched KeyDown action. -/
def testSessionWithActions : WebDriverSession :=
  { testSession with
      input_state_table := [("kbd", .key ["a"])]
      input_cancel_list := [⟨"kbd", .key, [.keyUp "a"]⟩] }

/-- A handler holding `testSessionWithActions`. -/
def testHandlerWithActions : Handler :=
  { session := some testSessionWithActions, resize_timeout := 500 }

/-- A concrete engine-side cookie. -/
def testRawCookie : RawCookie :=
  { name := "k"
    value := "v"
    path := some "/"
    domain := none
    expires := none
    secure := none
    httpOnly := some true
    sameSite := none }

/-- The two commands admitted without a session. -/
def WebDriverCommand.isNewSessionOrStatus {α : Type} : WebDriverCommand α → Bool
  | .newSession _ => true
  | .status => true
  | _ => false

/-- Claim C1: for every WebDriver command c not in NewSession, Status,
dispatching c while the handler holds no session returns the
SessionNotCreated error, the handler state is unchanged (still no session),
and nothing is sent to the engine. -/
theorem C1_session_gating {α : Type} (env : Engine α) (h : Handler) (cmd : WebDriverCommand α)
    (hno : h.session = none) (hcmd : cmd.isNewSessionOrStatus = false) :
    handle_command env h cmd =
      (.err (WebDriverError.new .sessionNotCreated "Session not created"), h, []) := by
  cases cmd <;>
    simp_all [handle_command, WebDriverCommand.isNewSessionOrStatus]

/-- Witness for C1 at the GetTitle command and the initial handler. -/
theorem C1_session_gating_witness :
    handle_command testEngine Handler.new (.getTitle : WebDriverCommand Int) =
      (.err (WebDriverError.new .sessionNotCreated "Session not created"), Handler.new, []) :=
  C1_session_gating testEngine Handler.new .getTitle rfl rfl

/-- Claim C3: when a session already exists and the capability-processing
step succeeds, a second NewSession fails with
UnknownError("Session already created") and the handler (hence the existing
session) is unchanged. -/
theorem C3_second_new_session {α : Type} (env : Engine α) (h : Handler) (s : WebDriverSession)
    (parameters : NewSessionParameters α) (hs : h.session = some s)
    (hcaps : ∃ caps, processed_capabilities_of env parameters = .ok caps) :
    handle_new_session env h parameters =
      (.err (WebDriverError.new .unknownError "Session already created"), h, []) := by
  obtain ⟨caps, hcaps⟩ := hcaps
  simp [handle_new_session, hcaps, hs]

/-- Witness for C3: a legacy NewSession against a handler already holding
`testSession`. -/
theorem C3_second_new_session_witness :
    handle_new_session testEngine testHandler (.legacy : NewSessionParameters Int) =
      (.err (WebDriverError.new .unknownError "Session already created"), testHandler, []) :=
  C3_second_new_session testEngine testHandler testSession .legacy rfl ⟨some .nil, rfl⟩

/-- Claim C4: a Get command whose url fails URL parsing returns
InvalidArgument("Invalid URL"), leaves the handler unchanged and sends no
message to the Controller. -/
theorem C4_invalid_url {α : Type} (env : Engine α) (h : Handler) (parameters : GetParameters)
    (hurl : env.parseUrl parameters.url = none) :
    handle_get env h parameters =
      (.err (WebDriverError.new .invalidArgument "Invalid URL"), h, []) := by
  simp [handle_get, hurl]

/-- Witness for C4 at the unparsable URL of the spec's seed test. -/
theorem C4_invalid_url_witness :
    handle_get testEngine testHandler ⟨"::not a url::"⟩ =
      (.err (WebDriverError.new .invalidArgument "Invalid URL"), testHandler, []) :=
  C4_invalid_url testEngine testHandler ⟨"::not a url::"⟩ (by decide)

/-- Claim C7: every session built by `WebDriverSession::new` (the state
NewSession stores before applying caller-supplied capability overrides)
starts with script_timeout = 30000 ms, load_timeout = 300000 ms,
implicit_wait_timeout = 0, page_loading_strategy "normal",
strict_file_interactability false, unhandled_prompt_behavior
"dismiss and notify", and empty input state table and input cancel list. -/
theorem C7_session_defaults (uuid : String) (bcid : Nat) (tlbcid : Nat) :
    (WebDriverSession.new uuid bcid tlbcid).script_timeout = some 30000 ∧
    (WebDriverSession.new uuid bcid tlbcid).load_timeout = 300000 ∧
    (WebDriverSession.new uuid bcid tlbcid).implicit_wait_timeout = 0 ∧
    (WebDriverSession.new uuid bcid tlbcid).page_loading_strategy = "normal" ∧
    (WebDriverSession.new uuid bcid tlbcid).strict_file_interactability = false ∧
    (WebDriverSession.new uuid bcid tlbcid).unhandled_prompt_behavior = "dismiss and notify" ∧
    (WebDriverSession.new uuid bcid tlbcid).input_state_table = [] ∧
    (WebDriverSession.new uuid bcid tlbcid).input_cancel_list = [] := by
  simp [WebDriverSession.new]

/-- Claim C9: while a session exists, GetWindowHandle answers exactly the
session id rendered as a string, and GetWindowHandles answers exactly the
singleton list of that same string (so the handle equals the first and only
element of the handle list, and both equal the session id). -/
theorem C9_single_window_identity {α : Type} (h : Handler) (s : WebDriverSession)
    (hs : h.session = some s) :
    (handle_window_handle h : HandlerResult α).1 = .ok (.generic (.str s.id)) ∧
    (handle_window_handles h : HandlerResult α).1 =
      .ok (.generic (.arr (.cons (.str s.id) .nil))) := by
  simp [handle_window_handle, handle_window_handles, hs]

/-- Witness for C9 at `testHandler`. -/
theorem C9_single_window_identity_witness :
    (handle_window_handle testHandler : HandlerResult Int).1 =
      .ok (.generic (.str testSession.id)) ∧
    (handle_window_handles testHandler : HandlerResult Int).1 =
      .ok (.generic (.arr (.cons (.str testSession.id) .nil))) :=
  C9_single_window_identity testHandler testSession rfl

/-- Whether the next load-status message arrives strictly before `timeout`
milliseconds (the condition under which the select in `wait_for_load` yields
the message rather than the timer). -/
def arrivesWithin (arrival : Option Nat) (timeout : Nat) : Bool :=
  match arrival with
  | some t => decide (t < timeout)
  | none => false

/-- Claim C5: for a Get (or Refresh) command with a valid URL, the handler
answers Void when a load-status arrives on the load-status channel before
the session's load_timeout elapses, and the Timeout error when no
load-status arrives within load_timeout milliseconds. -/
theorem C5_navigation_timeout {α : Type} (env : Engine α) (h : Handler) (s : WebDriverSession)
    (parameters : GetParameters) (url : String) (hs : h.session = some s)
    (hurl : env.parseUrl parameters.url = some url) :
    (arrivesWithin env.loadStatusArrival s.load_timeout = true →
        (handle_get env h parameters).1 = .ok .void ∧
        (handle_refresh env h).1 = .ok .void) ∧
    (arrivesWithin env.loadStatusArrival s.load_timeout = false →
        (handle_get env h parameters).1 = .err (WebDriverError.new .timeout "Load timed out") ∧
        (handle_refresh env h).1 = .err (WebDriverError.new .timeout "Load timed out")) := by
  have hsr : h.sessionResult = .ok s := by simp [Handler.sessionResult, hs]
  cases harr : env.loadStatusArrival with
  | none =>
      simp [arrivesWithin, harr, handle_get, handle_refresh, wait_for_load, hurl, hsr]
  | some t =>
      by_cases hlt : t < s.load_timeout <;>
        simp [arrivesWithin, harr, hlt, handle_get, handle_refresh, wait_for_load, hurl, hsr]

/-- Witness for C5: an arrival at instant 0 (within the 300000 ms default)
yields Void for Get and Refresh; no arrival yields the Timeout error. -/
theorem C5_navigation_timeout_witness :
    ((handle_get testEngine testHandler ⟨"http://example.org/"⟩).1 = .ok .void ∧
     (handle_refresh testEngine testHandler).1 = .ok .void) ∧
    ((handle_get { testEngine with loadStatusArrival := none } testHandler
        ⟨"http://example.org/"⟩).1 = .err (WebDriverError.new .timeout "Load timed out") ∧
     (handle_refresh { testEngine with loadStatusArrival := none } testHandler).1 =
        .err (WebDriverError.new .timeout "Load timed out")) :=
  ⟨(C5_navigation_timeout testEngine testHandler testSession ⟨"http://example.org/"⟩
      "http://example.org/" rfl (by decide)).1 (by decide),
   (C5_navigation_timeout { testEngine with loadStatusArrival := none } testHandler testSession
      ⟨"http://example.org/"⟩ "http://example.org/" rfl (by decide)).2 (by decide)⟩

/-- The locator strategies the bridge accepts. -/
def LocatorStrategy.isSupported : LocatorStrategy → Bool
  | .cssSelector => true
  | .linkText => true
  | .partialLinkText => true
  | .tagName => true
  | .xPath => false

/-- Whether a message list contains a dispatched script command. -/
def sendsScriptCommand (msgs : List ConstellationMsg) : Bool :=
  msgs.any fun m =>
    match m with
    | .webDriverCommand (.scriptCommand _ _) => true
    | _ => false

/-- Claim C6: find-element and find-elements accept exactly the CSSSelector,
LinkText, PartialLinkText and TagName locator strategies (a script command is
dispatched to the engine); every other strategy (XPath) fails
UnsupportedOperation with nothing sent and the handler unchanged. -/
theorem C6_locator_coverage {α : Type} (env : Engine α) (h : Handler) (s : WebDriverSession)
    (parameters : LocatorParameters) (hs : h.session = some s) :
    (parameters.strategy.isSupported = true →
        sendsScriptCommand (handle_find_element env h parameters).2.2 = true ∧
        sendsScriptCommand (handle_find_elements env h parameters).2.2 = true) ∧
    (parameters.strategy.isSupported = false →
        handle_find_element env h parameters =
          (.err (WebDriverError.new .unsupportedOperation "Unsupported locator strategy"),
           h, []) ∧
        handle_find_elements env h parameters =
          (.err (WebDriverError.new .unsupportedOperation "Unsupported locator strategy"),
           h, [])) := by
  have hsr : h.sessionResult = .ok s := by simp [Handler.sessionResult, hs]
  obtain ⟨strategy, value⟩ := parameters
  cases strategy <;>
    cases henv : env.findElementReply <;> cases henv2 : env.findElementsReply <;>
      simp [handle_find_element, handle_find_elements, LocatorStrategy.isSupported,
            browsing_context_script_command, hsr, sendsScriptCommand, henv, henv2]

/-- Witness for C6: CSSSelector is accepted; XPath is rejected. -/
theorem C6_locator_coverage_witness :
    (sendsScriptCommand (handle_find_element testEngine testHandler
        ⟨.cssSelector, "div"⟩).2.2 = true ∧
     sendsScriptCommand (handle_find_elements testEngine testHandler
        ⟨.cssSelector, "div"⟩).2.2 = true) ∧
    (handle_find_element testEngine testHandler ⟨.xPath, "//div"⟩ =
      (.err (WebDriverError.new .unsupportedOperation "Unsupported locator strategy"),
       testHandler, []) ∧
     handle_find_elements testEngine testHandler ⟨.xPath, "//div"⟩ =
      (.err (WebDriverError.new .unsupportedOperation "Unsupported locator strategy"),
       testHandler, [])) :=
  ⟨(C6_locator_coverage testEngine testHandler testSession ⟨.cssSelector, "div"⟩ rfl).1 rfl,
   (C6_locator_coverage testEngine testHandler testSession ⟨.xPath, "//div"⟩ rfl).2 rfl⟩

/-- Claim C10: GetNamedCookie unconditionally takes the first element of the
engine's reply list: on a non-empty reply it answers the first cookie, and on
an empty reply (no cookie with the requested name) it reaches the unwrap's
error branch — a panic, not a typed WebDriver error. -/
theorem C10_get_named_cookie {α : Type} (env : Engine α) (h : Handler) (s : WebDriverSession)
    (name : String) (hs : h.session = some s) :
    (env.getCookieReply = [] →
        (handle_get_cookie env h name).1 = .panic "called Option::unwrap on a None value" ∧
        ∀ e, (handle_get_cookie env h name).1 ≠ .err e) ∧
    (∀ c rest, env.getCookieReply = c :: rest →
        (handle_get_cookie env h name).1 = .ok (.cookie (cookie_msg_to_cookie c))) := by
  have hsr : h.sessionResult = .ok s := by simp [Handler.sessionResult, hs]
  constructor
  · intro hempty
    simp [handle_get_cookie, browsing_context_script_command, hsr, hempty]
  · intro c rest hrepl
    simp [handle_get_cookie, browsing_context_script_command, hsr, hrepl]

/-- Witness for C10: an empty reply panics; a singleton reply answers the
cookie. -/
theorem C10_get_named_cookie_witness :
    (handle_get_cookie testEngine testHandler "k").1 =
      (.panic "called Option::unwrap on a None value" : Outcome Int) ∧
    (handle_get_cookie { testEngine with getCookieReply := [testRawCookie] }
        testHandler "k").1 = .ok (.cookie (cookie_msg_to_cookie testRawCookie)) :=
  ⟨((C10_get_named_cookie testEngine testHandler testSession "k" rfl).1 rfl).1,
   (C10_get_named_cookie { testEngine with getCookieReply := [testRawCookie] }
      testHandler testSession "k" rfl).2 testRawCookie [] rfl⟩

/-- Claim C2: when the replay succeeds, ReleaseActions answers Void, its
engine events are exactly those of dispatching the input cancel list in
reverse insertion order (over the session with the cancel list taken out),
and afterwards the session's input state table is empty — hence every input
source still in the table (there are none) has no pressed keys and no
pressed buttons. -/
theorem C2_release_actions {α : Type} (env : Engine α) (h : Handler) (s : WebDriverSession)
    (hs : h.session = some s)
    (hdisp : (dispatch_actions env { s with input_cancel_list := [] }
        s.input_cancel_list.reverse).1 = none) :
    (handle_release_actions env h).1 = .ok .void ∧
    (handle_release_actions env h).2.2 =
      (dispatch_actions env { s with input_cancel_list := [] }
        s.input_cancel_list.reverse).2.2 ∧
    ∃ s2, (handle_release_actions env h).2.1.session = some s2 ∧
      s2.input_state_table = [] ∧
      ∀ p ∈ s2.input_state_table, p.2.pressedKeys = [] ∧ p.2.pressedButtons = [] := by
  rcases hd : dispatch_actions env { s with input_cancel_list := [] }
      s.input_cancel_list.reverse with ⟨r, s1, msgs⟩
  rw [hd] at hdisp
  simp only at hdisp
  subst hdisp
  simp [handle_release_actions, hs, hd]

/-- Witness for C2: releasing after a KeyDown("a") on source "kbd". -/
theorem C2_release_actions_witness :
    (handle_release_actions testEngine testHandlerWithActions).1 =
      (.ok .void : Outcome Int) ∧
    (handle_release_actions testEngine testHandlerWithActions).2.2 =
      (dispatch_actions testEngine { testSessionWithActions with input_cancel_list := [] }
        testSessionWithActions.input_cancel_list.reverse).2.2 ∧
    ∃ s2, (handle_release_actions testEngine testHandlerWithActions).2.1.session = some s2 ∧
      s2.input_state_table = [] ∧
      ∀ p ∈ s2.input_state_table, p.2.pressedKeys = [] ∧ p.2.pressedButtons = [] :=
  C2_release_actions testEngine testHandlerWithActions testSessionWithActions rfl (by decide)

/-- A JSON object whose (potential) singleton-string key is not reserved
decodes pointwise to a JS object. -/
theorem decode_obj_not_reserved {α : Type} (E : JsonEntries α)
    (hE : ∀ k s, singleEntryString E = some (k, s) →
      k ≠ webElementKey ∧ k ≠ webFrameKey ∧ k ≠ webWindowKey) :
    decodeJSValue (.obj E) = .object (decodeJSEntries E) := by
  cases hs : singleEntryString E with
  | none => simp [decodeJSValue, hs]
  | some ks =>
      obtain ⟨k, s⟩ := ks
      obtain ⟨h1, h2, h3⟩ := hE k s hs
      simp [decodeJSValue, hs, h1, h2, h3]

/-- On good entries, the encoder's output never takes the reserved
singleton-handle shape. -/
theorem serialize_entries_shape {α : Type} (kvs : JSValueEntries α)
    (hv : goodJSEntries kvs = true) :
    ∀ k s, singleEntryString (serializeJSEntries kvs) = some (k, s) →
      k ≠ webElementKey ∧ k ≠ webFrameKey ∧ k ≠ webWindowKey := by
  intro k s hks
  cases kvs with
  | nil => simp [serializeJSEntries, singleEntryString] at hks
  | cons k0 v rest =>
    cases rest with
    | cons k1 v1 rest1 =>
        have hnone : singleEntryString
            (serializeJSEntries (.cons k0 v (.cons k1 v1 rest1))) = none := by
          cases v <;> rfl
        rw [hnone] at hks
        cases hks
    | nil =>
        simp [goodJSEntries] at hv
        cases v <;> simp [serializeJSEntries, serializeJSValue, singleEntryString] at hks
        obtain ⟨hk, -⟩ := hks
        subst hk
        obtain ⟨⟨⟨h1, h2⟩, h3⟩, -⟩ := hv
        exact ⟨h1, h2, h3⟩

mutual
/-- Re-decoding the JS-result encoder's output recovers the value (up to the
undefined→null collapse), for values whose object keys avoid the reserved
handle keys. -/
theorem decode_serialize_good {α : Type} (v : WebDriverJSValue α)
    (hv : goodJSValue v = true) :
    decodeJSValue (serializeJSValue v) = canonicalizeJSValue v := by
  cases v with
  | undefined => rfl
  | null => rfl
  | boolean b => rfl
  | number x => rfl
  | string s => rfl
  | element e =>
      simp [serializeJSValue, decodeJSValue, canonicalizeJSValue, singleEntryString]
  | frame f =>
      simp [serializeJSValue, decodeJSValue, canonicalizeJSValue, singleEntryString,
            webElementKey, webFrameKey]
  | window w =>
      simp [serializeJSValue, decodeJSValue, canonicalizeJSValue, singleEntryString,
            webElementKey, webFrameKey, webWindowKey]
  | arrayLike xs =>
      have h1 := decode_serialize_good_list xs (by simpa [goodJSValue] using hv)
      simp [serializeJSValue, decodeJSValue, canonicalizeJSValue, h1]
  | object kvs =>
      have hgood : goodJSEntries kvs = true := by simpa [goodJSValue] using hv
      have h1 := decode_serialize_good_entries kvs hgood
      calc decodeJSValue (serializeJSValue (.object kvs))
          = decodeJSValue (.obj (serializeJSEntries kvs)) := rfl
        _ = .object (decodeJSEntries (serializeJSEntries kvs)) :=
            decode_obj_not_reserved _ (serialize_entries_shape kvs hgood)
        _ = .object (canonicalizeJSEntries kvs) := by rw [h1]
        _ = canonicalizeJSValue (.object kvs) := rfl

/-- Pointwise version of `decode_serialize_good` for arrays. -/
theorem decode_serialize_good_list {α : Type} (xs : JSValueList α)
    (hxs : goodJSList xs = true) :
    decodeJSList (serializeJSList xs) = canonicalizeJSList xs := by
  cases xs with
  | nil => rfl
  | cons x rest =>
      simp [goodJSList] at hxs
      have h1 := decode_serialize_good x hxs.1
      have h2 := decode_serialize_good_list rest hxs.2
      simp [serializeJSList, decodeJSList, canonicalizeJSList, h1, h2]

/-- Pointwise version of `decode_serialize_good` for object entries. -/
theorem decode_serialize_good_entries {α : Type} (kvs : JSValueEntries α)
    (hkvs : goodJSEntries kvs = true) :
    decodeJSEntries (serializeJSEntries kvs) = canonicalizeJSEntries kvs := by
  cases kvs with
  | nil => rfl
  | cons k v rest =>
      simp [goodJSEntries] at hkvs
      obtain ⟨⟨-, hgv⟩, hrest⟩ := hkvs
      have h1 := decode_serialize_good v hgv
      have h2 := decode_serialize_good_entries rest hrest
      simp [serializeJSEntries, decodeJSEntries, canonicalizeJSEntries, h1, h2]
end

/-- Claim C8 counterexample: the flat object with the single entry
(standard element key ↦ "x") encodes to exactly the same JSON as the element
handle "x", yet differs from it — so no re-decoding can preserve both this
flat object and element handles, and the natural decoder recovers the
element, not the object. -/
theorem C8_round_trip_counterexample :
    serializeJSValue
        (.object (.cons webElementKey (.string "x") .nil) : WebDriverJSValue Int) =
      serializeJSValue (.element "x" : WebDriverJSValue Int) ∧
    decodeJSValue (serializeJSValue
        (.object (.cons webElementKey (.string "x") .nil) : WebDriverJSValue Int)) =
      .element "x" ∧
    (.element "x" : WebDriverJSValue Int) ≠
      .object (.cons webElementKey (.string "x") .nil) := by
  refine ⟨by decide, by decide, by decide⟩

/-- Claim C8 (amended): for every value produced by the engine whose object
keys avoid the three reserved handle keys, the JS-result encoder's JSON
output, re-decoded, preserves booleans, numbers (payloads carried opaquely),
strings, element handles, arrays and (flat or nested) objects — exactly up to
the collapse of undefined into null; and the undefined and null variants both
encode to JSON null. -/
theorem C8_round_trip {α : Type} (v : WebDriverJSValue α) (hv : goodJSValue v = true) :
    decodeJSValue (serializeJSValue v) = canonicalizeJSValue v ∧
    serializeJSValue (.undefined : WebDriverJSValue α) = .null ∧
    serializeJSValue (.null : WebDriverJSValue α) = .null :=
  ⟨decode_serialize_good v hv, rfl, rfl⟩

/-- A concrete good JS value exercising scalars, handles, arrays, undefined
and a flat object. -/
def testJSValue : WebDriverJSValue Int :=
  .object (.cons "a" (.number 3)
    (.cons "b" (.arrayLike (.cons (.boolean true) (.cons .undefined .nil)))
      (.cons "c" (.element "elt-1") .nil)))

/-- Witness for C8 at `testJSValue`. -/
theorem C8_round_trip_witness :
    decodeJSValue (serializeJSValue testJSValue) = canonicalizeJSValue testJSValue ∧
    serializeJSValue (.undefined : WebDriverJSValue Int) = .null ∧
    serializeJSValue (.null : WebDriverJSValue Int) = .null :=
  C8_round_trip testJSValue (by decide)
